import Mathlib

/-!
Verification of the release publication orchestrator (publish, release and
development commands) against its natural-language specification.

The TypeScript source is shallowly embedded: every external interaction
(version-control commands, remote-repository API, artifact registry,
language-model service, manifest store) is recorded as an `Effect` in an
execution trace, and the outside world is represented by environment
records supplying the results those interactions would produce.  The
command implementations are translated control-flow-faithfully into
functions from environment and configuration to an outcome plus a trace.
-/

/-! ## JSON values (package manifests) -/

/-- JSON value tree, used to model parsed package manifests. -/
inductive Json where
  | null
  | bool (b : Bool)
  | num (n : Int)
  | str (s : String)
  | arr (elems : List Json)
  | obj (fields : List (String × Json))

/-- Insert a field into a key-sorted field list (models Object.keys(..).sort()). -/
def insertField (p : String × Json) : List (String × Json) → List (String × Json)
  | [] => [p]
  | q :: qs => if p.1 ≤ q.1 then p :: q :: qs else q :: insertField p qs

/-- Sort a field list by key (insertion sort; stable, like Array.prototype.sort on keys). -/
def sortFieldsByKey : List (String × Json) → List (String × Json)
  | [] => []
  | p :: ps => insertField p (sortFieldsByKey ps)

mutual
/-- Translation of the helper `sortObjectKeys` (publish command): deep-sort object
keys for stable comparison; arrays are mapped elementwise, scalars unchanged. -/
def sortObjectKeys : Json → Json
  | .null => .null
  | .bool b => .bool b
  | .num n => .num n
  | .str s => .str s
  | .arr xs => .arr (sortJsonList xs)
  | .obj fs => .obj (sortFieldsByKey (sortJsonFields fs))

/-- Elementwise `sortObjectKeys` over an array (the `value.map(sortObjectKeys)` branch). -/
def sortJsonList : List Json → List Json
  | [] => []
  | x :: xs => sortObjectKeys x :: sortJsonList xs

/-- `sortObjectKeys` applied to each field value of an object. -/
def sortJsonFields : List (String × Json) → List (String × Json)
  | [] => []
  | (k, v) :: fs => (k, sortObjectKeys v) :: sortJsonFields fs
end

mutual
/-- Structural equality of JSON trees; models `JSON.stringify(a) === JSON.stringify(b)`
(stringification is injective on JSON values). -/
def jsonBeq : Json → Json → Bool
  | .null, .null => true
  | .bool a, .bool b => a == b
  | .num a, .num b => a == b
  | .str a, .str b => a == b
  | .arr xs, .arr ys => jsonListBeq xs ys
  | .obj fs, .obj gs => jsonFieldsBeq fs gs
  | _, _ => false

/-- Elementwise equality of JSON arrays. -/
def jsonListBeq : List Json → List Json → Bool
  | [], [] => true
  | x :: xs, y :: ys => jsonBeq x y && jsonListBeq xs ys
  | _, _ => false

/-- Fieldwise equality of JSON objects (order-sensitive, as stringify is). -/
def jsonFieldsBeq : List (String × Json) → List (String × Json) → Bool
  | [], [] => true
  | (k, v) :: fs, (l, w) :: gs => k == l && jsonBeq v w && jsonFieldsBeq fs gs
  | _, _ => false
end

/-! ## Strings -/

/-- Whether the first character list is a prefix of the second. -/
def prefixMatches : List Char → List Char → Bool
  | [], _ => true
  | _ :: _, [] => false
  | a :: as, b :: bs => a == b && prefixMatches as bs

/-- Whether `needle` occurs somewhere in the character list. -/
def occursIn (needle : List Char) : List Char → Bool
  | [] => prefixMatches needle []
  | c :: cs => prefixMatches needle (c :: cs) || occursIn needle cs

/-- Substring test; models JavaScript `hay.includes(needle)`. -/
def containsSub (hay needle : String) : Bool := occursIn needle.data hay.data

/-! ## Effects and the execution monad -/

/-- One observable interaction of a command run with the world outside the
in-process control flow: version-control operations, remote API calls,
registry and language-model contacts, file writes, primary-stream output. -/
inductive Effect where
  | gitFetch (arg : String)
  | gitLsRemote (arg : String)
  | syncBranchWithRemote (branch : String)
  | gitLocal (cmd : String)
  | gitCheckout (branch : String)
  | gitCheckoutOurs (file : String)
  | gitAdd (files : String)
  | gitCommit (msg : String)
  | gitMerge (arg : String)
  | gitStash (op : String)
  | gitBranchCreate (name : String) (src : String)
  | gitResetHard (target : String)
  | gitTagCreate (name : String)
  | gitTagDeleteLocal (name : String)
  | gitTagDeleteRemote (name : String)
  | gitPushBranch (branch : String)
  | gitPushTag (name : String)
  | gitForcePush (branch : String)
  | fsRemove (path : String)
  | fsWrite (path : String)
  | npm (cmd : String)
  | registryRead (pkg : String)
  | githubRead (call : String)
  | githubWrite (call : String)
  | llm (call : String)
  | stdout (line : String)
  | sleep (ms : Nat)
  deriving DecidableEq

/-- Mutating operations: anything that changes the working copy, the repository
(local or remote), the filesystem, or remote API state.  Read-only queries,
log/stdout output and sleeps are not mutations. -/
def Effect.isMutatingOp : Effect → Bool
  | .gitCheckout _ => true
  | .gitCheckoutOurs _ => true
  | .gitAdd _ => true
  | .gitCommit _ => true
  | .gitMerge _ => true
  | .gitStash _ => true
  | .gitBranchCreate _ _ => true
  | .gitResetHard _ => true
  | .gitTagCreate _ => true
  | .gitTagDeleteLocal _ => true
  | .gitTagDeleteRemote _ => true
  | .gitPushBranch _ => true
  | .gitPushTag _ => true
  | .gitForcePush _ => true
  | .fsRemove _ => true
  | .fsWrite _ => true
  | .npm _ => true
  | .githubWrite _ => true
  | .syncBranchWithRemote _ => true
  | _ => false

/-- Operations that mutate a tag or a branch ref (local or remote). -/
def Effect.touchesTagOrBranch : Effect → Bool
  | .gitTagCreate _ => true
  | .gitTagDeleteLocal _ => true
  | .gitTagDeleteRemote _ => true
  | .gitPushTag _ => true
  | .gitPushBranch _ => true
  | .gitForcePush _ => true
  | .gitBranchCreate _ _ => true
  | .gitCommit _ => true
  | .gitMerge _ => true
  | .gitResetHard _ => true
  | .gitCheckout _ => true
  | .syncBranchWithRemote _ => true
  | .githubWrite _ => true
  | _ => false

/-- Interactions that contact a system outside the local working copy:
the git remote, the remote-repository API, the artifact registry (npm
commands may consult it), or the language-model service. -/
def Effect.contactsExternal : Effect → Bool
  | .gitFetch _ => true
  | .gitLsRemote _ => true
  | .syncBranchWithRemote _ => true
  | .gitPushBranch _ => true
  | .gitPushTag _ => true
  | .gitForcePush _ => true
  | .gitTagDeleteRemote _ => true
  | .npm _ => true
  | .registryRead _ => true
  | .githubRead _ => true
  | .githubWrite _ => true
  | .llm _ => true
  | _ => false

/-- How a command run ends before its normal tail: an early successful return
(the skip paths and the sync-target path) or a thrown error. -/
inductive Abort where
  | skipped
  | failure (msg : String)
  deriving DecidableEq

/-- Writer-with-abort monad: a computation yields a value or an abort, plus the
trace of effects performed up to that point. -/
def Step (α : Type) : Type := Except Abort α × List Effect

instance : Monad Step where
  pure a := (Except.ok a, [])
  bind x f :=
    match x with
    | (.error e, tr) => (.error e, tr)
    | (.ok a, tr) => let y := f a; (y.1, tr ++ y.2)

deriving instance DecidableEq for Except

instance {α : Type} [DecidableEq α] : DecidableEq (Step α) :=
  inferInstanceAs (DecidableEq (Except Abort α × List Effect))

/-- Record one effect. -/
def emit (e : Effect) : Step Unit := (Except.ok (), [e])

/-- Record a list of effects. -/
def emitAll (es : List Effect) : Step Unit := (Except.ok (), es)

/-- Throw an error (models `throw new Error(msg)`). -/
def failWith {α : Type} (msg : String) : Step α := (Except.error (.failure msg), [])

/-- Return early from the whole command with success (models a bare `return`). -/
def exitOk {α : Type} : Step α := (Except.error .skipped, [])

/-- Lift a pure value. -/
def ret {α : Type} (a : α) : Step α := (Except.ok a, [])

/-- Final result of a command run: whether it resolved (no throw), the thrown
message when it did not, and the full effect trace. -/
structure RunResult where
  ok : Bool
  err : Option String
  trace : List Effect
  deriving DecidableEq

/-- Interpret a completed `Step`: both normal completion and an early
successful return resolve; only a thrown error rejects. -/
def runStep (s : Step Unit) : RunResult :=
  match s with
  | (.ok _, tr) => ⟨true, none, tr⟩
  | (.error .skipped, tr) => ⟨true, none, tr⟩
  | (.error (.failure m), tr) => ⟨false, some m, tr⟩

/-! ## Release necessity evaluator (`isReleaseNecessaryComparedToTarget`) -/

/-- Decision record `{necessary, reason}` returned by the necessity evaluator. -/
structure ReleaseNecessity where
  necessary : Bool
  reason : String
  deriving DecidableEq

/-- External inputs consumed by `isReleaseNecessaryComparedToTarget`:
whether `git rev-parse --verify targetBranch` succeeds, the trimmed
non-empty lines of `git diff --name-only target..current`, and the parsed,
validated manifests shown from each branch (`none` models a failed
`git show`, JSON parse or manifest validation, i.e. the catch path). -/
structure NecessityEnv where
  targetAccessible : Bool
  changedFiles : List String
  basePkg : Option (List (String × Json))
  headPkg : Option (List (String × Json))

/-- Drop the top-level `version` field (models `const {version: _v, ...rest} = pkg`). -/
def removeVersionField (fields : List (String × Json)) : List (String × Json) :=
  fields.filter (fun p => p.1 ≠ "version")

/-- Structural manifest comparison with the version field masked out and keys
deep-sorted, as in the source: `JSON.stringify(sortObjectKeys(baseWithoutVersion))
=== JSON.stringify(sortObjectKeys(headWithoutVersion))`. -/
def manifestsEqualExceptVersion (base head : List (String × Json)) : Bool :=
  jsonBeq (sortObjectKeys (.obj (removeVersionField base)))
    (sortObjectKeys (.obj (removeVersionField head)))

/-- Translation of `isReleaseNecessaryComparedToTarget` (publish command):
decide whether there are substantive changes compared to the target branch. -/
def isReleaseNecessaryComparedToTarget (env : NecessityEnv) : ReleaseNecessity :=
  if !env.targetAccessible then
    ⟨true, "Target branch does not exist; first release to this branch"⟩
  else
    let changedFiles := env.changedFiles
    if changedFiles.isEmpty then
      ⟨true, "No detectable changes via diff; proceeding conservatively"⟩
    else
      let nonVersionFiles := changedFiles.filter (fun f => f ≠ "package.json")
      if !nonVersionFiles.isEmpty then
        ⟨true, "Changed files beyond version bump"⟩
      else
        match env.basePkg, env.headPkg with
        | some basePkg, some headPkg =>
          if manifestsEqualExceptVersion basePkg headPkg then
            ⟨false, "No meaningful changes detected: only package.json version field differs"⟩
          else
            ⟨true, "package.json changes beyond version field"⟩
        | _, _ => ⟨true, "Could not compare package.json safely"⟩

/-- Read-only version-control commands executed by the necessity evaluator,
in source order, for the trace of the surrounding publish run. -/
def necessityEffects (env : NecessityEnv) : List Effect :=
  [.gitLocal "getCurrentBranchName", .gitLocal "rev-parse --verify targetBranch"] ++
  if !env.targetAccessible then []
  else
    [.gitLocal "diff --name-only targetBranch..currentBranch"] ++
    if env.changedFiles.isEmpty then []
    else if !(env.changedFiles.filter (fun f => f ≠ "package.json")).isEmpty then []
    else
      [.gitLocal "show targetBranch:package.json", .gitLocal "show currentBranch:package.json"]

/-! ## Configuration -/

/-- Per-branch version policy (`branches[name].version`). -/
structure VersionCfg where
  tag : Option String
  incrementLevel : Option String

/-- Per-branch policy entry (`branches[name]`). -/
structure BranchCfg where
  targetBranch : Option String
  version : Option VersionCfg

/-- The `publish` section of the run configuration (only the fields the
publish command reads). -/
structure PublishOpts where
  targetBranch : Option String
  syncTarget : Bool
  updateDeps : Bool
  dependencyUpdatePatterns : Option (List String)
  skipPrePublishMerge : Option Bool
  targetVersion : Option String
  skipAlreadyPublished : Bool
  forceRepublish : Bool
  interactive : Bool
  mergeMethod : Option String
  noMilestones : Bool
  waitForReleaseWorkflows : Option Bool
  releaseWorkflowNames : Option (List String)
  agenticPublish : Bool

/-- Run configuration consumed by the publish command. -/
structure PubConfig where
  dryRun : Bool
  publish : PublishOpts
  branches : Option (List (String × BranchCfg))
  releaseNoMilestones : Bool

/-- Lookup of a branch policy entry (`runConfig.branches[name]`). -/
def lookupBranchCfg (bs : Option (List (String × BranchCfg))) (name : String) :
    Option BranchCfg :=
  match bs with
  | none => none
  | some l => (l.find? (fun p => p.1 == name)).map (fun p => p.2)

/-! ## Pre-publish merge conflict resolution (C6 region) -/

/-- The fixed version-bookkeeping allow-list: conflicts only in these files may
be auto-resolved (`const versionFiles = ['package.json']`; the lock file is
gitignored). -/
def versionFiles : List String := ["package.json"]

/-- The `for (const file of conflicts)` loop: every conflicted file on the
allow-list is resolved by keeping the current branch content and staged. -/
def resolveConflictFiles : List String → List Effect
  | [] => []
  | f :: fs =>
    if versionFiles.contains f then
      .gitCheckoutOurs f :: .gitAdd f :: resolveConflictFiles fs
    else resolveConflictFiles fs

/-- Translation of the merge-conflict handling inside the pre-publish merge of
the target branch: list the conflicted files; fail if any conflict lies outside
the allow-list; otherwise auto-resolve each allow-listed file with
`git checkout --ours`, stage it, and complete the merge with a synthetic
commit. -/
def resolvePreMergeConflicts (targetBranch : String) (conflicts : List String) : Step Unit := do
  emit (.gitLocal "diff --name-only --diff-filter=U")
  let nonVersionConflicts := conflicts.filter (fun f => !versionFiles.contains f)
  if nonVersionConflicts.length > 0 then
    failWith "Merge conflicts in non-version files. Please resolve manually."
  else do
    emitAll (resolveConflictFiles conflicts)
    emit (.gitCommit ("Merge " ++ targetBranch ++ " to sync before version bump (auto-resolved version conflicts)"))

/-! ## Existing-tag conflict handling (C3/C4 region) -/

/-- Inputs of the tag-conflict handler: the package name, the proposed version
whose tag `v<version>` was found to exist, the latest version the artifact
registry reports for the package (`none` when not published), and the relevant
flags. -/
structure TagConflictCtx where
  packageName : String
  proposedVersion : String
  npmVersion : Option String
  skipAlreadyPublished : Bool
  forceRepublish : Bool
  isDryRun : Bool

/-- Translation of the smart tag-conflict handling in the publish command,
entered when `checkIfTagExists` reports that tag `v<proposedVersion>` already
exists: query the registry; if the registry already has exactly this version,
either terminate successfully with the skip marker (skip-if-published flag) or
throw a duplicate-version error; otherwise the tag is an orphan of an
interrupted run, and either both tags are deleted (force-republish flag) or a
tag-conflict error is thrown with nothing modified. -/
def handleExistingTag (ctx : TagConflictCtx) : Step Unit := do
  let targetTagName := "v" ++ ctx.proposedVersion
  emit (.registryRead ctx.packageName)
  emit (.gitLocal ("getTagInfo " ++ targetTagName))
  if ctx.npmVersion == some ctx.proposedVersion then
    if ctx.skipAlreadyPublished then do
      emit (.stdout "KODRDRIV_PUBLISH_SKIPPED")
      exitOk
    else
      failWith ("Version " ++ ctx.proposedVersion ++ " already published. Use --skip-already-published to continue.")
  else
    if ctx.forceRepublish then
      if !ctx.isDryRun then do
        emit (.gitTagDeleteLocal targetTagName)
        emit (.gitTagDeleteRemote targetTagName)
      else ret ()
    else
      failWith ("Tag " ++ targetTagName ++ " already exists. Use --force-republish to override.")

/-! ## Release-record creation with retry (C5 region) -/

/-- Classification of a failure message as the tag-reference-not-found case
(remote tag propagation lag), as in the source: the message includes
"not found", "does not exist" or "Reference does not exist". -/
def isTagNotFoundMessage (msg : String) : Bool :=
  containsSub msg "not found" || containsSub msg "does not exist" ||
    containsSub msg "Reference does not exist"

/-- What the remote API does on one iteration of the retry loop: the
`createRelease` call succeeds (after which the milestone close may still
throw), or it throws with a message. -/
inductive AttemptResult where
  | success (milestoneFailure : Option String)
  | failure (msg : String)
  deriving DecidableEq

/-- The error raised when the retry budget for release creation is exhausted
on the tag-not-found failure, naming the number of attempts made. -/
def tagPropagationTimeoutMsg (tagName : String) (attempts : Nat) : String :=
  "Tag " ++ tagName ++ " was not found on GitHub after " ++ toString attempts ++
    " attempts. This may indicate a problem with tag creation or GitHub synchronization."

/-- Translation of the release-creation retry loop (`let retries = 3;
while (retries > 0) ...`): each iteration calls `createRelease`; on success the
milestone for the version is closed (when enabled) and the loop exits; a
failure whose message is the tag-not-found case is retried after a fixed
3-second sleep while more than one retry remains, raises the propagation
timeout error naming the attempt count when retries are exhausted, and any
other failure is re-thrown immediately. -/
def releaseRetryLoop (tagName : String) (milestonesEnabled : Bool) :
    Nat → List AttemptResult → Step Unit
  | 0, _ => ret ()
  | retries + 1, outcomes => do
    let errOpt ← (do
      emit (.githubWrite ("createRelease " ++ tagName))
      match outcomes.headD (.failure "createRelease failed") with
      | .success milestoneFailure =>
        if milestonesEnabled then do
          emit (.githubWrite "closeMilestoneForVersion")
          ret milestoneFailure
        else ret (none : Option String)
      | .failure msg => ret (some msg) : Step (Option String))
    match errOpt with
    | none => ret ()
    | some msg =>
      if isTagNotFoundMessage msg && retries + 1 > 1 then do
        emit (.sleep 3000)
        releaseRetryLoop tagName milestonesEnabled retries outcomes.tail
      else if isTagNotFoundMessage msg then
        failWith (tagPropagationTimeoutMsg tagName (3 - (retries + 1) + 1))
      else failWith msg

/-- Whether an effect is a `createRelease` call against the remote API. -/
def isCreateReleaseCall : Effect → Bool
  | .githubWrite c => prefixMatches "createRelease".data c.data
  | _ => false

/-- Number of `createRelease` calls recorded in a trace. -/
def countReleaseAttempts (tr : List Effect) : Nat :=
  (tr.filter isCreateReleaseCall).length

/-! ## Post-publish reconciliation (C8 region) -/

/-- External results consumed by the reconciliation step.  `ancestryCheckOk`
records whether the `git merge-base --is-ancestor` safety query succeeds; in
the source its failure is caught, logged at verbose level, and control falls
through to the force push regardless, so the field does not influence the
control flow. -/
structure ReconcileEnv where
  ancestryCheckOk : Bool
  forcePushFails : Bool
  ffMergeSucceeds : Bool
  newDevVersion : String
  devVersionBumpFails : Bool
  pushSourceFails : Bool

/-- Development-version bump command and prerelease tag for the source branch
(`versionCommand`/`versionTag` selection): defaults `prepatch`/`dev`, overridden
by the source branch policy when branch-dependent versioning is active. -/
def devBumpSettings (cfg : PubConfig) (currentBranch : String) : String × String :=
  match lookupBranchCfg cfg.branches currentBranch with
  | some bc =>
    match bc.version with
    | some v =>
      ((match v.incrementLevel with | some l => "pre" ++ l | none => "prepatch"),
       (match v.tag with | some t => t | none => "dev"))
    | none => ("prepatch", "dev")
  | none => ("prepatch", "dev")

/-- Translation of the post-publish reconciliation: switch back to the source
branch; with the squash strategy hard-reset it to the target, attempt the
ancestry safety query (whose failure is swallowed) and force-push with
`--force-with-lease`; with any other strategy fast-forward-merge the target
back in, falling back to a regular merge; then bump to the next development
version, commit it, and push the source branch (bump and push failures are
caught and logged as warnings). -/
def reconcilePhase (env : ReconcileEnv) (cfg : PubConfig)
    (currentBranch targetBranch mergeMethod : String) : Step Unit := do
  if !cfg.dryRun then emit (.gitCheckout currentBranch) else ret ()
  if !cfg.dryRun then do
    if mergeMethod == "squash" then do
      emit (.gitResetHard targetBranch)
      emit (.gitFetch ("origin " ++ currentBranch))
      emit (.gitLocal ("merge-base --is-ancestor origin/" ++ currentBranch ++ " " ++ targetBranch))
      emit (.gitForcePush currentBranch)
    else do
      emit (.gitMerge (targetBranch ++ " --ff-only"))
      if env.ffMergeSucceeds then ret ()
      else emit (.gitMerge (targetBranch ++ " --no-edit"))
    let versionCommand := (devBumpSettings cfg currentBranch).1
    let versionTag := (devBumpSettings cfg currentBranch).2
    emit (.npm ("npm version " ++ versionCommand ++ " --preid=" ++ versionTag ++ " --no-git-tag-version"))
    if env.devVersionBumpFails then ret ()
    else do
      emit (.gitAdd "package.json")
      emit (.gitCommit ("chore: bump to " ++ env.newDevVersion))
    emit (.gitPushBranch currentBranch)
  else ret ()

/-! ## Release command model (release.ts `execute`) -/

/-- External inputs of release-notes generation: the versions determined for
milestone lookup (from the manifest and config) and the generated summary the
agentic service returns. -/
structure ReleaseEnv where
  milestoneVersions : List String
  title : String
  body : String

/-- Release summary `{title, body}` returned by the release command. -/
structure ReleaseSummary where
  title : String
  body : String

/-- Translation of the release command `execute`: collect the commit log and
diff between the resolved references, fetch milestone issues from the
remote-repository API when milestones are enabled and versions were
determined, then run agentic release-notes generation against the
language-model service.  None of these calls is guarded by dry-run mode; only
the logger differs. -/
def releaseExecute (env : ReleaseEnv) (noMilestones : Bool) : Step ReleaseSummary := do
  emit (.gitLocal "diff fromRef..toRef")
  emit (.gitLocal "log fromRef..toRef")
  if !noMilestones && !env.milestoneVersions.isEmpty then
    emit (.githubRead "getMilestoneIssuesForRelease")
  else ret ()
  emit (.llm "runAgenticRelease")
  ret ⟨env.title, env.body⟩

/-! ## Publish command model -/

/-- Result of a merge attempt as the surrounding code classifies it: clean,
a conflict (the error text contains CONFLICT), or some other failure. -/
inductive MergeOutcome where
  | clean
  | conflict
  | failedOther (msg : String)
  deriving DecidableEq

/-- Result of `safeSyncBranchWithRemote` for the sync-target recovery path. -/
inductive SyncTargetOutcome where
  | success
  | conflicts
  | failed (err : String)
  deriving DecidableEq

/-- Result of the pre-publish merge of the target branch. -/
inductive PreMergeOutcome where
  | clean
  | conflict (files : List String)
  | failedOther (msg : String)

/-- Everything the outside world supplies to one real (non-dry-run) publish
run, in the order the source consults it. -/
structure PubEnv where
  currentBranch : String
  remoteHasCurrentBranch : Bool
  currentSyncOutcome : MergeOutcome
  syncTargetOutcome : SyncTargetOutcome
  targetLocalExists : Bool
  targetRemoteExists : Bool
  inGitRepo : Bool
  workingDirDirty : Bool
  targetInSync : Bool
  agenticResolves : Bool
  pkgJsonExists : Bool
  pkgJsonParses : Bool
  hasPrepublishOnly : Bool
  missingEnvVars : List String
  necessity : NecessityEnv
  necessityCheckThrows : Bool
  openPR : Option Nat
  packageLockHasLinkRefs : Bool
  depsStaged : Bool
  mergeNeeded : Bool
  preMergeOutcome : PreMergeOutcome
  postMergeChanges : Bool
  postMergeStaged : Bool
  packageName : String
  currentVersion : String
  branchVersionResult : String × String
  calculatedVersion : String
  tagExistsForProposed : Bool
  npmVersion : Option String
  confirmedVersion : String
  confirmedTagExists : Bool
  bumpStaged : Bool
  releaseEnv : ReleaseEnv
  prCreateOk : Bool
  newPRNumber : Nat
  checksWaitError : Option String
  prMergeError : Option String
  dirtyAtCheckout : Bool
  targetRemoteExistsLater : Bool
  targetSyncOutcome : MergeOutcome
  versionOnTarget : String
  tagListShowsTag : Bool
  tagOnRemote : Bool
  releaseAttempts : List AttemptResult
  workflowsWaitError : Option String
  reconcile : ReconcileEnv

/-- Guard helper: throw when the condition holds (models the
`if (bad) throw new Error(msg)` pattern). -/
def check (cond : Bool) (msg : String) : Step Unit :=
  if cond then failWith msg else ret ()

/-- Initial fetch and synchronization of the current branch with its remote
counterpart (dry-run uses a mock branch name and performs nothing). -/
def syncCurrentPhase (env : PubEnv) (cfg : PubConfig) : Step String :=
  if cfg.dryRun then ret "mock-branch"
  else do
    emit (.gitLocal "getCurrentBranchName")
    emit (.gitFetch "origin")
    emit (.gitLsRemote ("heads " ++ env.currentBranch))
    if env.remoteHasCurrentBranch then do
      emit (.gitFetch ("origin " ++ env.currentBranch))
      emit (.gitMerge ("origin/" ++ env.currentBranch ++ " --no-edit"))
      match env.currentSyncOutcome with
      | .clean => ret env.currentBranch
      | .conflict =>
        failWith ("Merge conflicts detected when syncing " ++ env.currentBranch ++ " with remote. Please resolve conflicts manually.")
      | .failedOther _ => ret env.currentBranch
    else ret env.currentBranch

/-- Target-branch and version-strategy resolution from the branches
configuration: returns the effective target branch and whether
branch-dependent versioning is active for the current branch. -/
def resolveTargetBranch (cfg : PubConfig) (currentBranch : String) : String × Bool :=
  let defaultTarget := match cfg.publish.targetBranch with | some t => t | none => "main"
  match lookupBranchCfg cfg.branches currentBranch with
  | some bc =>
    ((match bc.targetBranch with | some t => t | none => defaultTarget), true)
  | none => (defaultTarget, false)

/-- Translation of `handleTargetBranchSyncRecovery` (--sync-target flag): in
dry-run mode only log; otherwise synchronize the target branch with its remote
and fail on conflicts or sync errors. -/
def handleTargetBranchSyncRecovery (env : PubEnv) (cfg : PubConfig) (targetBranch : String) :
    Step Unit :=
  if cfg.dryRun then ret ()
  else do
    emit (.syncBranchWithRemote targetBranch)
    match env.syncTargetOutcome with
    | .success => ret ()
    | .conflicts =>
      failWith ("Target branch " ++ targetBranch ++ " has conflicts that require manual resolution.")
    | .failed err => failWith ("Failed to sync target branch: " ++ err)

/-- Ensure the target branch exists locally: track the remote branch when it
exists remotely, otherwise create it from HEAD and push it. -/
def ensureTargetBranchPhase (env : PubEnv) (cfg : PubConfig) (targetBranch : String) : Step Unit :=
  if cfg.dryRun then ret ()
  else do
    emit (.gitLocal ("localBranchExists " ++ targetBranch))
    if env.targetLocalExists then ret ()
    else do
      emit (.gitLsRemote ("heads " ++ targetBranch))
      if env.targetRemoteExists then
        emit (.gitBranchCreate targetBranch ("origin/" ++ targetBranch))
      else do
        emit (.gitBranchCreate targetBranch "HEAD")
        emit (.gitPushBranch targetBranch)

/-- Translation of `runPrechecks`: in dry-run mode every check is only logged;
otherwise verify the git repository, a clean working tree, that the current
branch is not the target, target-branch remote sync (with the optional agentic
recovery), the manifest with its prepublishOnly script, and required
environment variables. -/
def runPrechecksPhase (env : PubEnv) (cfg : PubConfig) (targetBranch currentBranch : String) :
    Step Unit :=
  if cfg.dryRun then ret ()
  else do
    emit (.gitLocal "rev-parse --git-dir")
    check (!env.inGitRepo)
      "Not in a git repository or git command failed. Please run this command from within a git repository."
    emit (.gitLocal "status --porcelain")
    check env.workingDirDirty
      "Failed to check git status: working directory has uncommitted changes. Please commit or stash your changes before running publish."
    emit (.gitLocal "getCurrentBranchName")
    check (currentBranch == targetBranch)
      ("Cannot run publish from the target branch " ++ targetBranch ++ ". Please switch to a different branch before running publish.")
    (if env.targetLocalExists then do
      emit (.gitLocal ("isBranchInSyncWithRemote " ++ targetBranch))
      if !env.targetInSync then
        if cfg.publish.agenticPublish then do
          emit (.llm "runAgenticPublish")
          if env.agenticResolves then ret ()
          else
            failWith ("Target branch " ++ targetBranch ++ " requires manual intervention. Please see the steps above.")
        else
          failWith ("Target branch " ++ targetBranch ++ " is not in sync with remote. Please sync the branch before running publish.")
      else ret ()
    else ret ())
    check (!env.pkgJsonExists) "package.json not found in current directory."
    check (!env.pkgJsonParses) "Failed to parse package.json. Please ensure it contains valid JSON."
    check (!env.hasPrepublishOnly)
      "prepublishOnly script is required in package.json but was not found. Please add a prepublishOnly script that runs your pre-flight checks (e.g. clean, lint, build, test)."
    check (!env.missingEnvVars.isEmpty)
      ("Missing required environment variables: " ++ String.intercalate ", " env.missingEnvVars ++ ". Please set these environment variables before running publish.")

/-- Early release-necessity check: evaluate `isReleaseNecessaryComparedToTarget`
(which runs its version-control queries in dry-run mode too); when the release
is unnecessary, print the machine-readable skip marker on stdout and return
successfully; an unexpected evaluation failure is caught and the run proceeds
conservatively. -/
def necessityPhase (env : PubEnv) : Step Unit :=
  if env.necessityCheckThrows then do
    emit (.gitLocal "getCurrentBranchName")
    ret ()
  else do
    emitAll (necessityEffects env.necessity)
    if !(isReleaseNecessaryComparedToTarget env.necessity).necessary then do
      emit (.stdout "KODRDRIV_PUBLISH_SKIPPED")
      exitOk
    else ret ()

/-- Pull-request lookup keyed by the current head branch name; dry-run assumes
no existing pull request. -/
def prLookupPhase (env : PubEnv) (cfg : PubConfig) : Step (Option Nat) :=
  if cfg.dryRun then ret none
  else do
    emit (.gitLocal "getCurrentBranchName")
    emit (.githubRead "findOpenPullRequestByHeadRef")
    ret env.openPR

/-- Translation of `cleanupNpmLinkReferences`: when the lock file contains
relative `file:` references from npm link, remove it and regenerate it (real
mode only; failures are warnings). -/
def cleanupNpmLinkReferencesStep (env : PubEnv) (isDryRun : Bool) : Step Unit :=
  if env.packageLockHasLinkRefs then
    if isDryRun then ret ()
    else do
      emit (.fsRemove "package-lock.json")
      emit (.npm "npm install --package-lock-only --no-audit --no-fund")
  else ret ()

/-- `npm install` and follow-up commit after a completed pre-publish merge. -/
def postMergeInstall (env : PubEnv) (targetBranch : String) : Step Unit := do
  emit (.npm "npm install")
  emit (.gitLocal "status --porcelain")
  if env.postMergeChanges then do
    emit (.gitAdd "package.json")
    if env.postMergeStaged then
      emit (.gitCommit ("post-merge changes after merging " ++ targetBranch))
    else ret ()
  else ret ()

/-- Translation of the optional pre-publish merge of the target branch into the
working branch (skipped by default): fetch the target, check whether a merge is
needed, merge, auto-resolve conflicts confined to the version-file allow-list
(`resolvePreMergeConflicts`), and run `npm install` plus a follow-up commit when
a merge happened. -/
def preMergePhase (env : PubEnv) (cfg : PubConfig) (targetBranch : String) : Step Unit :=
  if cfg.publish.skipPrePublishMerge != some false then ret ()
  else if cfg.dryRun then ret ()
  else do
    emit (.gitFetch ("origin " ++ targetBranch ++ ":" ++ targetBranch))
    emit (.gitLocal ("merge-base HEAD " ++ targetBranch))
    emit (.gitLocal ("rev-parse " ++ targetBranch))
    if !env.mergeNeeded then ret ()
    else do
      emit (.gitMerge (targetBranch ++ " --no-edit"))
      match env.preMergeOutcome with
      | .clean => postMergeInstall env targetBranch
      | .conflict files => do
        resolvePreMergeConflicts targetBranch files
        postMergeInstall env targetBranch
      | .failedOther msg => failWith msg

/-- Version determination: read the current manifest version, compute the
proposed version (branch-dependent policy or the configured increment, both via
external resolvers), run the existing-tag conflict handling when the proposed
tag already exists, optionally confirm interactively (with its own re-check),
and write the new version to the manifest.  Dry-run short-circuits with a mock
version. -/
def versionPhase (env : PubEnv) (cfg : PubConfig) (targetBranch : String)
    (branchDependentVersioning : Bool) : Step (String × String) :=
  if cfg.dryRun then ret ("1.0.0", targetBranch)
  else do
    let pair :=
      if branchDependentVersioning && cfg.branches.isSome then
        env.branchVersionResult
      else
        (env.calculatedVersion, targetBranch)
    let proposedVersion := pair.1
    let finalTargetBranch := pair.2
    emit (.gitLocal ("checkIfTagExists v" ++ proposedVersion))
    (if env.tagExistsForProposed then
      handleExistingTag
        ⟨env.packageName, proposedVersion, env.npmVersion,
          cfg.publish.skipAlreadyPublished, cfg.publish.forceRepublish, cfg.dryRun⟩
    else ret ())
    let newVersion ←
      if cfg.publish.interactive then do
        emit (.gitLocal ("checkIfTagExists v" ++ env.confirmedVersion))
        if env.confirmedTagExists then do
          emit (.registryRead env.packageName)
          if env.npmVersion == some env.confirmedVersion then
            failWith ("Tag v" ++ env.confirmedVersion ++ " already exists and version is published on npm. Please choose a different version.")
          else if !cfg.publish.forceRepublish then
            failWith ("Tag v" ++ env.confirmedVersion ++ " already exists. Use --force-republish to override.")
          else ret env.confirmedVersion
        else ret env.confirmedVersion
      else ret proposedVersion
    emit (.fsWrite "package.json")
    ret (newVersion, finalTargetBranch)

/-- Stage and commit the version bump as its own commit. -/
def commitVersionBumpPhase (env : PubEnv) (cfg : PubConfig) : Step Unit :=
  if cfg.dryRun then ret ()
  else do
    emit (.gitAdd "package.json")
    if env.bumpStaged then emit (.gitCommit "version bump") else ret ()

/-- Generate release notes through the release command and, in real mode, write
them to the output directory. -/
def releaseNotesPhase (env : PubEnv) (cfg : PubConfig) : Step Unit := do
  let _ ← releaseExecute env.releaseEnv cfg.releaseNoMilestones
  if cfg.dryRun then ret ()
  else do
    emit (.fsWrite "RELEASE_NOTES.md")
    emit (.fsWrite "RELEASE_TITLE.md")

/-- Push the working branch and create the promotion pull request (dry-run
yields a mock pull request number). -/
def pushAndCreatePRPhase (env : PubEnv) (cfg : PubConfig) : Step Nat := do
  emit (.gitLocal "getCurrentBranchName")
  if cfg.dryRun then ret 123
  else do
    emit (.gitPushBranch env.currentBranch)
    emit (.gitLocal "log -1 --pretty=%B")
    emit (.githubWrite "createPullRequest")
    if env.prCreateOk then ret env.newPRNumber
    else failWith "Failed to create pull request."

/-- Wait for the pull-request checks.  The workflow-configuration probe is a
hard-wired stub reporting that pull-request-triggered workflows exist, so the
wait is never skipped in real mode; a wait failure propagates. -/
def checksPhase (env : PubEnv) (cfg : PubConfig) (prNumber : Nat) : Step Unit :=
  if cfg.dryRun then ret ()
  else do
    emit (.githubRead ("waitForPullRequestChecks " ++ toString prNumber))
    match env.checksWaitError with
    | none => ret ()
    | some msg => failWith msg

/-- Merge the pull request with the configured strategy; a failure whose
message indicates a non-mergeable state is reclassified as a user-actionable
conflict error, other failures are re-thrown. -/
def mergePRPhase (env : PubEnv) (cfg : PubConfig) (prNumber : Nat) : Step Unit :=
  if cfg.dryRun then ret ()
  else do
    emit (.githubWrite ("mergePullRequest " ++ toString prNumber))
    match env.prMergeError with
    | none => ret ()
    | some msg =>
      if containsSub msg "not mergeable" || containsSub msg "Pull Request is not mergeable" ||
          containsSub msg "merge conflict" then
        failWith ("Merge conflicts detected in PR " ++ toString prNumber ++ ". Please resolve conflicts and re-run the command.")
      else failWith msg

/-- Switch to the target branch (stashing uncommitted changes), synchronize it
with its remote, and restore the stash. -/
def checkoutTargetPhase (env : PubEnv) (cfg : PubConfig) (targetBranch : String) : Step Unit := do
  let stashed ←
    if !cfg.dryRun then do
      emit (.gitLocal "status --porcelain")
      if env.dirtyAtCheckout then do
        emit (.gitStash "push")
        ret true
      else ret false
    else ret false
  (if !cfg.dryRun then do
    emit (.gitCheckout targetBranch)
    emit (.gitLsRemote ("heads " ++ targetBranch))
    if env.targetRemoteExistsLater then do
      emit (.gitFetch ("origin " ++ targetBranch))
      emit (.gitMerge ("origin/" ++ targetBranch ++ " --no-edit"))
      match env.targetSyncOutcome with
      | .clean => ret ()
      | .conflict =>
        failWith ("Target branch " ++ targetBranch ++ " sync failed. Use recovery options above to resolve.")
      | .failedOther _ => ret ()
    else ret ()
  else ret ())
  if stashed then emit (.gitStash "pop") else ret ()

/-- Create the release tag on the target branch and push it, skipping either
step when the tag already exists there, and allow a settle delay after a fresh
push for remote tag propagation. -/
def tagPhase (env : PubEnv) (cfg : PubConfig) : Step String :=
  if cfg.dryRun then ret "v1.0.0"
  else do
    let tagName := "v" ++ env.versionOnTarget
    emit (.gitLocal ("tag -l " ++ tagName))
    (if env.tagListShowsTag then ret ()
     else emit (.gitTagCreate tagName))
    emit (.gitLsRemote ("refs/tags/" ++ tagName))
    (if env.tagOnRemote then ret ()
     else do
      emit (.gitPushTag tagName)
      emit (.sleep 5000))
    ret tagName

/-- Create the remote release record via the bounded retry loop. -/
def releaseRecordPhase (env : PubEnv) (cfg : PubConfig) (tagName : String) : Step Unit :=
  if cfg.dryRun then ret ()
  else releaseRetryLoop tagName (!cfg.publish.noMilestones) 3 env.releaseAttempts

/-- Wait for release-triggered workflows (enabled by default): auto-detect the
workflow names when none are configured, then block on their completion. -/
def workflowsWaitPhase (env : PubEnv) (cfg : PubConfig) (tagName : String) : Step Unit :=
  if cfg.publish.waitForReleaseWorkflows == some false then ret ()
  else if cfg.dryRun then ret ()
  else do
    (match cfg.publish.releaseWorkflowNames with
     | some (_ :: _) => ret ()
     | _ => emit (.githubRead "getWorkflowsTriggeredByRelease"))
    emit (.githubRead ("waitForReleaseWorkflows " ++ tagName))
    match env.workflowsWaitError with
    | none => ret ()
    | some msg => failWith msg

/-- Everything the publish command does after the pull request is known: wait
for checks, merge, switch to the target branch, tag, create the release
record, wait for release workflows, and reconcile the source branch. -/
def publishTail (env : PubEnv) (cfg : PubConfig) (prNumber : Nat)
    (currentBranch targetBranch : String) : Step Unit := do
  checksPhase env cfg prNumber
  mergePRPhase env cfg prNumber
  checkoutTargetPhase env cfg targetBranch
  let tagName ← tagPhase env cfg
  releaseRecordPhase env cfg tagName
  workflowsWaitPhase env cfg tagName
  reconcilePhase env.reconcile cfg currentBranch targetBranch
    (match cfg.publish.mergeMethod with | some m => m | none => "squash")

/-- The phases of the publish command that precede the release-necessity
check: current-branch sync, target resolution, the --sync-target early path,
target-branch creation, and the prechecks.  Returns the current branch name. -/
def publishPrologue (env : PubEnv) (cfg : PubConfig) : Step String := do
  let currentBranch ← syncCurrentPhase env cfg
  let targetBranch0 := (resolveTargetBranch cfg currentBranch).1
  (if cfg.publish.syncTarget then do
    handleTargetBranchSyncRecovery env cfg targetBranch0
    exitOk
  else ret ())
  ensureTargetBranchPhase env cfg targetBranch0
  runPrechecksPhase env cfg targetBranch0 currentBranch
  ret currentBranch

/-- The creation path taken when no open pull request exists for the head
branch: npm-link cleanup, dependency updates, the prepublishOnly script,
dependency commit, optional pre-publish merge, version resolution with
tag-conflict handling, version-bump commit, release notes, push, and
pull-request creation.  Returns the pull request number and the (possibly
branch-dependent) final target branch. -/
def creationPath (env : PubEnv) (cfg : PubConfig) (targetBranch0 : String)
    (branchDependentVersioning : Bool) : Step (Nat × String) := do
  cleanupNpmLinkReferencesStep env cfg.dryRun
  (if cfg.publish.updateDeps && !cfg.dryRun then emit (.npm "kodrdriv updates") else ret ())
  (if !cfg.dryRun then
    match cfg.publish.dependencyUpdatePatterns with
    | some (p :: ps) => emit (.npm ("npm update " ++ String.intercalate " " (p :: ps)))
    | _ => emit (.npm "npm update")
  else ret ())
  (if !cfg.dryRun then emit (.npm "npm run prepublishOnly") else ret ())
  (if !cfg.dryRun then emit (.gitAdd "package.json") else ret ())
  (if !cfg.dryRun && env.depsStaged then emit (.gitCommit "dependency updates") else ret ())
  preMergePhase env cfg targetBranch0
  let (_newVersion, targetBranch) ←
    versionPhase env cfg targetBranch0 branchDependentVersioning
  commitVersionBumpPhase env cfg
  releaseNotesPhase env cfg
  let prNumber ← pushAndCreatePRPhase env cfg
  ret (prNumber, targetBranch)

/-- Translation of the publish command `execute`: prologue, release-necessity
gate with the machine-readable skip marker, pull-request lookup keyed by head
branch (skipping the entire creation path when one is found), then the shared
tail from checks-waiting to reconciliation. -/
def publishMain (env : PubEnv) (cfg : PubConfig) : Step Unit := do
  let currentBranch ← publishPrologue env cfg
  let targetBranch0 := (resolveTargetBranch cfg currentBranch).1
  let branchDependentVersioning := (resolveTargetBranch cfg currentBranch).2
  necessityPhase env
  let pr ← prLookupPhase env cfg
  let (prNumber, targetBranch) ←
    match pr with
    | some n => ret (n, targetBranch0)
    | none => creationPath env cfg targetBranch0 branchDependentVersioning
  publishTail env cfg prNumber currentBranch targetBranch

/-- The publish command as observed by its caller: resolution status, thrown
message, and the full effect trace. -/
def publishExecute (env : PubEnv) (cfg : PubConfig) : RunResult :=
  runStep (publishMain env cfg)

/-! ## Development command model -/

/-- Drop one leading `v` (models `s.replace(/^v/, "")`). -/
def stripLeadingV (s : String) : String :=
  match s.data with
  | 'v' :: rest => String.mk rest
  | _ => s

/-- Split a character list on the dot character. -/
def splitOnDot : List Char → List (List Char)
  | [] => [[]]
  | c :: cs =>
    let rest := splitOnDot cs
    if c == '.' then [] :: rest
    else
      match rest with
      | [] => [[c]]
      | g :: gs => (c :: g) :: gs

/-- Test for a plain `major.minor.patch` version literal after stripping a
leading `v` (models the `/^\d+\.\d+\.\d+$/` test). -/
def isPlainSemver (s : String) : Bool :=
  match splitOnDot (stripLeadingV s).data with
  | [a, b, c] =>
    !a.isEmpty && a.all Char.isDigit && !b.isEmpty && b.all Char.isDigit &&
      !c.isEmpty && c.all Char.isDigit
  | _ => false

/-- Numeric value of a digit list. -/
def digitsToNat (cs : List Char) : Nat :=
  cs.foldl (fun n c => n * 10 + (c.toNat - 48)) 0

/-- Base `major.minor.patch` components of a version string, ignoring any
prerelease suffix. -/
def parseSemverBase (s : String) : Nat × Nat × Nat :=
  match splitOnDot (s.data.takeWhile (fun c => c != '-')) with
  | [a, b, c] => (digitsToNat a, digitsToNat b, digitsToNat c)
  | _ => (0, 0, 0)

/-- Modelled from the spec: the external shared-library increment helpers
(`incrementPatchVersion`, `incrementMinorVersion`, `incrementMajorVersion` of
the shared package, not part of this repository): bump the named component and
zero the lower ones (minor bump on 1.2.3 gives 1.3.0, major gives 2.0.0). -/
def incrementVersion (level : String) (v : String) : String :=
  let (a, b, c) := parseSemverBase v
  if level == "major" then (toString (a + 1) ++ ".0.0")
  else if level == "minor" then (toString a ++ "." ++ toString (b + 1) ++ ".0")
  else (toString a ++ "." ++ toString b ++ "." ++ toString (c + 1))

/-- The `development` section of the run configuration. -/
structure DevelopmentOpts where
  targetVersion : Option String
  createRetroactiveTags : Bool
  workingTagPrefix : Option String
  tagWorkingBranch : Option Bool

/-- Run configuration consumed by the development command.
`configuredWorkingBranch` is the result of the external
`findDevelopmentBranch(branches)` helper applied to the branches
configuration. -/
structure DevConfig where
  dryRun : Bool
  development : Option DevelopmentOpts
  branches : Option (List (String × BranchCfg))
  configuredWorkingBranch : Option String

/-- Result of a `--ff-only` merge attempt as the development command
classifies it: success, failure whose message says fast-forward is not
possible, or any other failure (logged as a warning). -/
inductive FFOutcome where
  | ok
  | notPossible
  | otherFail
  deriving DecidableEq

/-- Everything the outside world supplies to one development-command run. -/
structure DevEnv where
  currentBranch : String
  mergeStatusChanges : Bool
  workingBranchExists : Bool
  remoteWorkingExists : Bool
  workingSyncOutcome : MergeOutcome
  targetBranchExists : Bool
  targetFFOutcome : FFOutcome
  targetMergeOutcome : MergeOutcome
  targetPostMergeChanges : Bool
  developmentBranchExists : Bool
  devMergeOutcome : MergeOutcome
  devPostMergeChanges : Bool
  retroTags : List String
  pkgVersion : Option String
  pkgVersionAtTagStep : Option String
  tagAlreadyExists : Bool
  pkgVersionAtBump : Option String

/-- Working-branch version policy lookup used when no explicit override is
given: tag and increment level from `branches[workingBranch].version`, with
defaults `dev` and `patch`. -/
def devSettingsFromBranches (bs : Option (List (String × BranchCfg)))
    (workingBranch : String) : String × String :=
  match lookupBranchCfg bs workingBranch with
  | some bc =>
    match bc.version with
    | some v =>
      ((match v.tag with | some t => t | none => "dev"),
       (match v.incrementLevel with | some l => l | none => "patch"))
    | none => ("dev", "patch")
  | none => ("dev", "patch")

/-- Prerelease tag and increment level resolution: a development-command
`targetVersion` override (validated) takes precedence, then the working
branch version policy, then the defaults `dev`/`patch`. -/
def devVersionSettings (cfg : DevConfig) (workingBranch : String) :
    Except String (String × String) :=
  match cfg.development with
  | some o =>
    match o.targetVersion with
    | some tv =>
      if !(["patch", "minor", "major"].contains tv) && !isPlainSemver tv then
        Except.error ("Invalid target version: " ++ tv ++ ". Expected patch, minor, major, or a valid version string like 2.1.0")
      else Except.ok ("dev", tv)
    | none => Except.ok (devSettingsFromBranches cfg.branches workingBranch)
  | none => Except.ok (devSettingsFromBranches cfg.branches workingBranch)

/-- The final status message of the development command, selected from the
actions taken during the run. -/
def devResultMessage (merged branchCreated branchUpdated alreadyOnBranch : Bool)
    (workingBranch newVersion : String) (isDryRun : Bool) : String :=
  if merged then "Merged development into working and ready for development"
  else if branchCreated then "Created working branch with development version"
  else if branchUpdated then "Updated working branch with development version"
  else if alreadyOnBranch then "Already on working branch with development version"
  else if isDryRun then ("Ready for development on " ++ workingBranch ++ " (dry run)")
  else ("Ready for development on " ++ workingBranch ++ " with version " ++ newVersion)

/-- Translation of `createRetroactiveTags`: scan the working-branch history for
development version-bump commits and tag each release point, pushing the new
tags (the set of tags to create is determined by the scan, supplied here by the
environment; failures in this step are warnings only). -/
def createRetroactiveTagsStep (env : DevEnv) (workingBranch : String) (isDryRun : Bool) :
    Step Unit := do
  emit (.gitLocal ("log " ++ workingBranch ++ " --oneline --all"))
  if !isDryRun then do
    emitAll (env.retroTags.map (fun t => .gitTagCreate t))
    if !env.retroTags.isEmpty then emit (.gitPushTag "--tags") else ret ()
  else ret ()

/-- Steps 5.5 and 6 of the development command: tag the working branch when the
manifest still carries a plain release version, then bump to the next
development version, write the manifest, and commit the bump.  Also selects the
final status message. -/
def devTagAndBump (env : DevEnv) (cfg : DevConfig)
    (workingBranch prereleaseTag incrementLevel : String)
    (merged branchCreated branchUpdated alreadyOnBranch : Bool) : Step String := do
  (if (match cfg.development with | some o => o.tagWorkingBranch | none => none) != some false then
    match env.pkgVersionAtTagStep with
    | some currentVersion =>
      let isReleaseVersion := !containsSub currentVersion "-dev." &&
        !containsSub currentVersion "-alpha." && !containsSub currentVersion "-beta." &&
        !containsSub currentVersion "-rc."
      if isReleaseVersion then
        let tagPrefix :=
          match (match cfg.development with | some o => o.workingTagPrefix | none => none) with
          | some p => p
          | none => "working/"
        let workingTagName := tagPrefix ++ "v" ++ currentVersion
        if !cfg.dryRun then do
          emit (.gitLocal ("tag -l " ++ workingTagName))
          if env.tagAlreadyExists then ret ()
          else do
            emit (.gitTagCreate workingTagName)
            emit (.gitPushTag workingTagName)
        else ret ()
      else ret ()
    | none => ret ()
  else ret ())
  if !cfg.dryRun then
    match env.pkgVersionAtBump with
    | some currentVersion =>
      let newVersion :=
        if ["patch", "minor", "major"].contains incrementLevel then
          incrementVersion incrementLevel currentVersion ++ "-" ++ prereleaseTag ++ ".0"
        else
          stripLeadingV incrementLevel ++ "-" ++ prereleaseTag ++ ".0"
      do
        emit (.fsWrite "package.json")
        emit (.gitAdd "package.json")
        emit (.gitCommit ("chore: bump to " ++ newVersion))
        ret (devResultMessage merged branchCreated branchUpdated alreadyOnBranch
          workingBranch newVersion false)
    | none =>
      failWith ("Failed to bump " ++ incrementLevel ++ " version: could not read package.json")
  else
    ret (devResultMessage merged branchCreated branchUpdated alreadyOnBranch
      workingBranch "" true)

/-- Translation of the development command `execute`: fetch, merge development
into working when starting from the development branch, switch to or create the
working branch, sync it with its remote and with the target branch, merge the
development branch when present, optionally create retroactive tags, return
early when already on the working branch with a development version, otherwise
tag the release point and bump to the next development version. -/
def devExecute (env : DevEnv) (cfg : DevConfig) : Step String := do
  let isDryRun := cfg.dryRun
  let currentBranch := if isDryRun then "mock-branch" else env.currentBranch
  let workingBranch :=
    match cfg.configuredWorkingBranch with | some b => b | none => "working"
  let settings ←
    (match devVersionSettings cfg workingBranch with
     | .ok s => ret s
     | .error msg => failWith msg)
  let prereleaseTag := settings.1
  let incrementLevel := settings.2
  (if !isDryRun then emit (.gitFetch "origin") else ret ())
  let merged ←
    if currentBranch == "development" then
      if !isDryRun then do
        emit (.gitCheckout workingBranch)
        emit (.gitMerge "development --no-ff")
        emit (.npm "npm install")
        emit (.gitLocal "status --porcelain")
        (if env.mergeStatusChanges then do
          emit (.gitAdd "-A")
          emit (.gitCommit "chore: update dependencies after merge")
        else ret ())
        ret true
      else ret true
    else ret false
  let flags ←
    if !isDryRun && !merged then do
      emit (.gitLocal ("localBranchExists " ++ workingBranch))
      if !env.workingBranchExists then do
        emit (.gitCheckout ("-b " ++ workingBranch))
        ret (true, false, false)
      else if currentBranch != workingBranch then do
        emit (.gitCheckout workingBranch)
        ret (false, true, false)
      else ret (false, false, true)
    else if !merged then do
      emit (.gitLocal ("localBranchExists " ++ workingBranch))
      if !env.workingBranchExists then ret (true, false, false)
      else if currentBranch != workingBranch then ret (false, true, false)
      else ret (false, false, true)
    else ret (false, false, false)
  let (branchCreated, branchUpdated, alreadyOnBranch) := flags
  (if !isDryRun then do
    emit (.gitLsRemote ("heads " ++ workingBranch))
    if env.remoteWorkingExists then do
      emit (.gitFetch ("origin " ++ workingBranch))
      emit (.gitMerge ("origin/" ++ workingBranch ++ " --no-edit"))
      match env.workingSyncOutcome with
      | .clean => ret ()
      | .conflict =>
        failWith ("Merge conflicts detected when syncing " ++ workingBranch ++ " with remote. Please resolve conflicts manually.")
      | .failedOther _ => ret ()
    else ret ()
  else ret ())
  let targetBranch :=
    match lookupBranchCfg cfg.branches workingBranch with
    | some bc => (match bc.targetBranch with | some t => t | none => "main")
    | none => "main"
  (if !isDryRun then do
    emit (.gitLocal ("localBranchExists " ++ targetBranch))
    if env.targetBranchExists then do
      emit (.gitMerge (targetBranch ++ " --ff-only"))
      match env.targetFFOutcome with
      | .ok => ret ()
      | .notPossible => do
        emit (.gitMerge (targetBranch ++ " -m sync"))
        (match env.targetMergeOutcome with
         | .clean => do
            emit (.npm "npm install")
            emit (.gitLocal "status --porcelain")
            if env.targetPostMergeChanges then do
              emit (.gitAdd "-A")
              emit (.gitCommit "chore: update dependencies after merge")
            else ret ()
         | .conflict =>
            failWith ("Merge conflicts detected when merging " ++ targetBranch ++ " into " ++ workingBranch ++ ". Please resolve conflicts manually.")
         | .failedOther msg => failWith msg)
      | .otherFail => ret ()
    else ret ()
  else ret ())
  (if !isDryRun then do
    emit (.gitLocal "localBranchExists development")
    if merged then ret ()
    else if env.developmentBranchExists then do
      emit (.gitMerge "development --no-ff")
      match env.devMergeOutcome with
      | .clean => do
        emit (.npm "npm install")
        emit (.gitLocal "status --porcelain")
        if env.devPostMergeChanges then do
          emit (.gitAdd "-A")
          emit (.gitCommit "chore: update package-lock.json after merge")
        else ret ()
      | .conflict =>
        failWith ("Merge conflicts detected when merging development into " ++ workingBranch ++ ". Please resolve conflicts manually.")
      | .failedOther msg => failWith msg
    else ret ()
  else ret ())
  (if (match cfg.development with | some o => o.createRetroactiveTags | none => false) then
    createRetroactiveTagsStep env workingBranch isDryRun
  else ret ())
  let earlyExitTaken :=
    alreadyOnBranch && !merged &&
      (match env.pkgVersion with
       | some v => containsSub v ("-" ++ prereleaseTag ++ ".")
       | none => false)
  if earlyExitTaken then
    ret "Already on working branch with development version"
  else
    devTagAndBump env cfg workingBranch prereleaseTag incrementLevel
      merged branchCreated branchUpdated alreadyOnBranch

/-! ## Computation lemmas for the execution monad -/

theorem emit_bind {β : Type} (e : Effect) (f : Unit → Step β) :
    (emit e >>= f) = ((f ()).1, e :: (f ()).2) := rfl

theorem emitAll_bind {β : Type} (es : List Effect) (f : Unit → Step β) :
    (emitAll es >>= f) = ((f ()).1, es ++ (f ()).2) := rfl

theorem ret_bind {α β : Type} (a : α) (f : α → Step β) : (ret a >>= f) = f a := by
  show ((f a).1, [] ++ (f a).2) = f a
  simp

theorem pure_bind_step {α β : Type} (a : α) (f : α → Step β) :
    ((pure a : Step α) >>= f) = f a := by
  show ((f a).1, [] ++ (f a).2) = f a
  simp

theorem failWith_bind {α β : Type} (msg : String) (f : α → Step β) :
    (failWith msg >>= f) = (Except.error (.failure msg), []) := rfl

theorem exitOk_bind {α β : Type} (f : α → Step β) :
    ((exitOk : Step α) >>= f) = (Except.error .skipped, []) := rfl

theorem ok_pair_bind {α β : Type} (a : α) (tr : List Effect) (f : α → Step β) :
    ((show Step α from (Except.ok a, tr)) >>= f) = ((f a).1, tr ++ (f a).2) := rfl

theorem error_pair_bind {α β : Type} (e : Abort) (tr : List Effect) (f : α → Step β) :
    ((show Step α from (Except.error e, tr)) >>= f) = (Except.error e, tr) := rfl

/-! ## C1: release-necessity evaluator -/

/-- C1: the release-necessity evaluator returns necessary=true when the target
branch does not exist or is unreachable (reason: first release), necessary=true
when the file diff between the branches is empty, necessary=false exactly when
package.json is the only differing file and the structural comparison of the
two manifests with the version field removed (keys deep-sorted) finds them
equal, and necessary=true on any comparison failure (malformed manifest or
command failure, modelled by a missing parsed manifest). -/
theorem releaseNecessity_characterization (env : NecessityEnv) :
    (env.targetAccessible = false →
      isReleaseNecessaryComparedToTarget env =
        ⟨true, "Target branch does not exist; first release to this branch"⟩) ∧
    (env.changedFiles = [] → (isReleaseNecessaryComparedToTarget env).necessary = true) ∧
    ((isReleaseNecessaryComparedToTarget env).necessary = false ↔
      (env.targetAccessible = true ∧ env.changedFiles ≠ [] ∧
        (∀ f ∈ env.changedFiles, f = "package.json") ∧
        ∃ b h, env.basePkg = some b ∧ env.headPkg = some h ∧
          manifestsEqualExceptVersion b h = true)) ∧
    ((env.basePkg = none ∨ env.headPkg = none) →
      (isReleaseNecessaryComparedToTarget env).necessary = true) := by
  obtain ⟨ta, cf, bp, hp⟩ := env
  unfold isReleaseNecessaryComparedToTarget
  cases ta with
  | false => simp
  | true =>
    simp only [Bool.not_true, Bool.false_eq_true, if_false, Bool.not_false, if_true]
    by_cases hcf : cf = []
    · subst hcf
      simp
    · have hcfe : cf.isEmpty = false := by
        rw [Bool.eq_false_iff, Ne, List.isEmpty_iff]
        exact hcf
      rw [hcfe]
      simp only [Bool.false_eq_true, if_false]
      by_cases hnv : ∀ f ∈ cf, f = "package.json"
      · have hfilter : (cf.filter (fun f => f ≠ "package.json")) = [] := by
          rw [List.filter_eq_nil_iff]
          intro a ha
          simp [hnv a ha]
        rw [hfilter]
        simp only [List.isEmpty_nil, Bool.not_true, Bool.false_eq_true, if_false]
        cases bp with
        | none => simp [hcf]
        | some b =>
          cases hp with
          | none => simp [hcf]
          | some h =>
            dsimp only
            by_cases heq : manifestsEqualExceptVersion b h
            · rw [if_pos heq]
              refine ⟨?_, ?_, ?_, ?_⟩
              · intro hh; exact absurd hh (by decide)
              · intro hh; exact absurd hh hcf
              · constructor
                · intro _
                  exact ⟨trivial, hcf, hnv, b, h, rfl, rfl, heq⟩
                · intro _
                  rfl
              · rintro (hb | hb) <;> cases hb
            · rw [if_neg heq]
              refine ⟨?_, ?_, ?_, ?_⟩
              · intro hh; exact absurd hh (by decide)
              · intro _; rfl
              · constructor
                · intro hh; exact absurd hh (by decide)
                · rintro ⟨_, _, _, b2, h2, hb2, hh2, heq2⟩
                  cases hb2; cases hh2
                  exact absurd heq2 heq
              · intro _; rfl
      · have hfilterne : (cf.filter (fun f => f ≠ "package.json")).isEmpty = false := by
          rw [Bool.eq_false_iff, Ne, List.isEmpty_iff, List.filter_eq_nil_iff]
          intro hcontra
          apply hnv
          intro a ha
          have := hcontra a ha
          simpa using this
        rw [hfilterne]
        simp only [Bool.not_false, if_true]
        refine ⟨?_, ?_, ?_, ?_⟩
        · intro hh; exact absurd hh (by decide)
        · intro _; first | rfl | trivial
        · constructor
          · intro hh; exact absurd hh (by decide)
          · rintro ⟨_, _, hall, _⟩
            exact absurd hall hnv
        · intro _; first | rfl | trivial

/-- Witness for the necessity characterization: an absent target branch yields
the first-release decision, and a manifest pair that differs only in the
version field (with differently ordered keys) yields necessary=false. -/
theorem releaseNecessity_characterization_witness :
    isReleaseNecessaryComparedToTarget ⟨false, [], none, none⟩ =
        ⟨true, "Target branch does not exist; first release to this branch"⟩ ∧
      (isReleaseNecessaryComparedToTarget
        ⟨true, ["package.json"],
          some [("name", Json.str "pkg"), ("version", Json.str "1.0.0")],
          some [("version", Json.str "1.0.1"), ("name", Json.str "pkg")]⟩).necessary = false :=
  ⟨(releaseNecessity_characterization _).1 rfl,
   (releaseNecessity_characterization _).2.2.1.2
     ⟨rfl, by decide, by decide, _, _, rfl, rfl, by decide⟩⟩

/-! ## C6: pre-publish merge conflict policy -/

/-- Auto-resolution trace for an all-allow-listed conflict set: one
`checkout --ours` and one `git add` per conflicted file. -/
theorem resolveConflictFiles_all_pkg (conflicts : List String)
    (hall : ∀ f ∈ conflicts, f = "package.json") :
    resolveConflictFiles conflicts =
      conflicts.flatMap (fun f => [Effect.gitCheckoutOurs f, Effect.gitAdd f]) := by
  induction conflicts with
  | nil => rfl
  | cons a as ih =>
    have ha : a = "package.json" := hall a (List.mem_cons_self a as)
    have h2 : versionFiles.contains a = true := by rw [ha]; decide
    simp only [resolveConflictFiles]
    rw [if_pos h2, ih (fun f hf => hall f (List.mem_cons_of_mem a hf))]
    simp

/-- C6: during the pre-publish merge, when every conflicted file is
package.json (the manifest allow-list) each conflicted file is resolved by
keeping the current branch version (checkout --ours) and staged, and the merge
is completed with a synthetic commit; when any conflicted file lies outside the
allow-list the merge is never auto-resolved and the run fails, with no
resolution or commit performed. -/
theorem preMergeConflictPolicy (targetBranch : String) (conflicts : List String) :
    ((∀ f ∈ conflicts, f = "package.json") →
      resolvePreMergeConflicts targetBranch conflicts =
        (Except.ok (),
          Effect.gitLocal "diff --name-only --diff-filter=U" ::
            (conflicts.flatMap (fun f => [Effect.gitCheckoutOurs f, Effect.gitAdd f]) ++
              [Effect.gitCommit ("Merge " ++ targetBranch ++ " to sync before version bump (auto-resolved version conflicts)")]))) ∧
    ((∃ f ∈ conflicts, f ∉ versionFiles) →
      resolvePreMergeConflicts targetBranch conflicts =
        (Except.error (.failure "Merge conflicts in non-version files. Please resolve manually."),
          [Effect.gitLocal "diff --name-only --diff-filter=U"])) := by
  constructor
  · intro hall
    have hfilter : conflicts.filter (fun f => !versionFiles.contains f) = [] := by
      rw [List.filter_eq_nil_iff]
      intro a ha
      have := hall a ha
      subst this
      decide
    have hneg : ¬ 0 < (conflicts.filter (fun f => !versionFiles.contains f)).length := by
      rw [hfilter]
      decide
    simp only [resolvePreMergeConflicts, emit_bind]
    rw [if_neg hneg]
    simp only [emitAll_bind, emit_bind]
    rw [resolveConflictFiles_all_pkg conflicts hall]
    rfl
  · rintro ⟨f, hf, hout⟩
    have hmem : f ∈ conflicts.filter (fun g => !versionFiles.contains g) :=
      List.mem_filter.mpr ⟨hf, by simpa using hout⟩
    have hpos := List.length_pos.mpr (List.ne_nil_of_mem hmem)
    simp only [resolvePreMergeConflicts, emit_bind]
    rw [if_pos hpos]
    rfl

/-- Witness for the pre-publish conflict policy: a manifest-only conflict is
auto-resolved and committed; a source-file conflict aborts with no
resolution. -/
theorem preMergeConflictPolicy_witness :
    resolvePreMergeConflicts "main" ["package.json"] =
        (Except.ok (),
          Effect.gitLocal "diff --name-only --diff-filter=U" ::
            (["package.json"].flatMap (fun f => [Effect.gitCheckoutOurs f, Effect.gitAdd f]) ++
              [Effect.gitCommit ("Merge " ++ "main" ++ " to sync before version bump (auto-resolved version conflicts)")])) ∧
      resolvePreMergeConflicts "main" ["src/utils.ts"] =
        (Except.error (.failure "Merge conflicts in non-version files. Please resolve manually."),
          [Effect.gitLocal "diff --name-only --diff-filter=U"]) :=
  ⟨(preMergeConflictPolicy "main" ["package.json"]).1 (by decide),
   (preMergeConflictPolicy "main" ["src/utils.ts"]).2 ⟨"src/utils.ts", by decide, by decide⟩⟩

/-! ## C3 and C4: existing-tag conflict handling -/

/-- C3: when the proposed tag exists and the registry reports the same version
as already published, the skip-if-published flag yields a successful
termination emitting the skip marker, and without the flag the run fails with
the duplicate-version error; in either case the handler mutates no tag or
branch before that outcome. -/
theorem duplicateVersionPolicy (ctx : TagConflictCtx)
    (hnpm : ctx.npmVersion = some ctx.proposedVersion) :
    (ctx.skipAlreadyPublished = true →
      runStep (handleExistingTag ctx) =
        ⟨true, none,
          [Effect.registryRead ctx.packageName,
           Effect.gitLocal ("getTagInfo " ++ ("v" ++ ctx.proposedVersion)),
           Effect.stdout "KODRDRIV_PUBLISH_SKIPPED"]⟩) ∧
    (ctx.skipAlreadyPublished = false →
      runStep (handleExistingTag ctx) =
        ⟨false,
          some ("Version " ++ ctx.proposedVersion ++ " already published. Use --skip-already-published to continue."),
          [Effect.registryRead ctx.packageName,
           Effect.gitLocal ("getTagInfo " ++ ("v" ++ ctx.proposedVersion))]⟩) ∧
    (∀ e ∈ (handleExistingTag ctx).2, e.touchesTagOrBranch = false) := by
  have hbeq : (ctx.npmVersion == some ctx.proposedVersion) = true := by
    rw [hnpm]; simp
  refine ⟨?_, ?_, ?_⟩
  · intro hskip
    simp [handleExistingTag, runStep, hbeq, hskip, emit_bind, ret, ok_pair_bind, exitOk]
  · intro hskip
    simp [handleExistingTag, runStep, hbeq, hskip, emit_bind, ret, ok_pair_bind, failWith]
  · intro e he
    rcases hskip : ctx.skipAlreadyPublished with _ | _
    · simp [handleExistingTag, hbeq, hskip, emit_bind, ret, ok_pair_bind, failWith] at he
      rcases he with rfl | rfl <;> rfl
    · simp [handleExistingTag, hbeq, hskip, emit_bind, ret, ok_pair_bind, exitOk] at he
      rcases he with rfl | rfl | rfl <;> rfl

/-- Witness for the duplicate-version policy: with the flag the handler skips
successfully with the marker; without it the run fails with the
duplicate-version error. -/
theorem duplicateVersionPolicy_witness :
    runStep (handleExistingTag ⟨"@scope/pkg", "2.0.0", some "2.0.0", true, false, false⟩) =
        ⟨true, none,
          [Effect.registryRead "@scope/pkg",
           Effect.gitLocal ("getTagInfo " ++ ("v" ++ "2.0.0")),
           Effect.stdout "KODRDRIV_PUBLISH_SKIPPED"]⟩ ∧
      runStep (handleExistingTag ⟨"@scope/pkg", "2.0.0", some "2.0.0", false, false, false⟩) =
        ⟨false,
          some ("Version " ++ "2.0.0" ++ " already published. Use --skip-already-published to continue."),
          [Effect.registryRead "@scope/pkg",
           Effect.gitLocal ("getTagInfo " ++ ("v" ++ "2.0.0"))]⟩ :=
  ⟨(duplicateVersionPolicy ⟨"@scope/pkg", "2.0.0", some "2.0.0", true, false, false⟩ rfl).1 rfl,
   (duplicateVersionPolicy ⟨"@scope/pkg", "2.0.0", some "2.0.0", false, false, false⟩ rfl).2.1 rfl⟩

/-- C4: when the proposed tag exists but the registry does not report that
version (an orphan tag), the force-republish flag makes the handler delete the
local and the remote tag and return so the run proceeds; without the flag the
run fails with the tag-conflict error and neither tag is modified. -/
theorem orphanTagPolicy (ctx : TagConflictCtx)
    (hnpm : ctx.npmVersion ≠ some ctx.proposedVersion) (hdry : ctx.isDryRun = false) :
    (ctx.forceRepublish = true →
      handleExistingTag ctx =
        (Except.ok (),
          [Effect.registryRead ctx.packageName,
           Effect.gitLocal ("getTagInfo " ++ ("v" ++ ctx.proposedVersion)),
           Effect.gitTagDeleteLocal ("v" ++ ctx.proposedVersion),
           Effect.gitTagDeleteRemote ("v" ++ ctx.proposedVersion)])) ∧
    (ctx.forceRepublish = false →
      runStep (handleExistingTag ctx) =
        ⟨false,
          some ("Tag " ++ ("v" ++ ctx.proposedVersion) ++ " already exists. Use --force-republish to override."),
          [Effect.registryRead ctx.packageName,
           Effect.gitLocal ("getTagInfo " ++ ("v" ++ ctx.proposedVersion))]⟩ ∧
      ∀ e ∈ (handleExistingTag ctx).2, e.touchesTagOrBranch = false) := by
  have hbeq : (ctx.npmVersion == some ctx.proposedVersion) = false := by
    rw [beq_eq_false_iff_ne]
    exact hnpm
  refine ⟨?_, ?_⟩
  · intro hforce
    simp [handleExistingTag, hbeq, hforce, hdry, emit_bind, emit, ret, ok_pair_bind]
  · intro hforce
    constructor
    · simp [handleExistingTag, runStep, hbeq, hforce, emit_bind, ret, ok_pair_bind, failWith]
    · intro e he
      simp [handleExistingTag, hbeq, hforce, emit_bind, ret, ok_pair_bind, failWith] at he
      rcases he with rfl | rfl <;> rfl

/-- Witness for the orphan-tag policy: with force-republish both tags are
deleted before proceeding; without it the run fails and only read effects
occur. -/
theorem orphanTagPolicy_witness :
    handleExistingTag ⟨"@scope/pkg", "2.0.0", some "1.9.0", false, true, false⟩ =
        (Except.ok (),
          [Effect.registryRead "@scope/pkg",
           Effect.gitLocal ("getTagInfo " ++ ("v" ++ "2.0.0")),
           Effect.gitTagDeleteLocal ("v" ++ "2.0.0"),
           Effect.gitTagDeleteRemote ("v" ++ "2.0.0")]) ∧
      runStep (handleExistingTag ⟨"@scope/pkg", "2.0.0", some "1.9.0", false, false, false⟩) =
        ⟨false,
          some ("Tag " ++ ("v" ++ "2.0.0") ++ " already exists. Use --force-republish to override."),
          [Effect.registryRead "@scope/pkg",
           Effect.gitLocal ("getTagInfo " ++ ("v" ++ "2.0.0"))]⟩ :=
  ⟨(orphanTagPolicy ⟨"@scope/pkg", "2.0.0", some "1.9.0", false, true, false⟩
      (by decide) rfl).1 rfl,
   ((orphanTagPolicy ⟨"@scope/pkg", "2.0.0", some "1.9.0", false, false, false⟩
      (by decide) rfl).2 rfl).1⟩

/-! ## C5: release-record creation retry policy -/

theorem isCreateReleaseCall_create (tag : String) :
    isCreateReleaseCall (Effect.githubWrite ("createRelease " ++ tag)) = true := by
  show prefixMatches "createRelease".data ("createRelease " ++ tag).data = true
  rw [String.data_append "createRelease " tag]
  rfl

theorem isCreateReleaseCall_milestone :
    isCreateReleaseCall (Effect.githubWrite "closeMilestoneForVersion") = false := by decide

theorem isCreateReleaseCall_sleep (ms : Nat) : isCreateReleaseCall (Effect.sleep ms) = false := rfl

theorem releaseRetry_count_le (tag : String) (me : Bool) :
    ∀ fuel os, countReleaseAttempts (releaseRetryLoop tag me fuel os).2 ≤ fuel := by
  intro fuel
  induction fuel with
  | zero => intro os; simp [releaseRetryLoop, ret, countReleaseAttempts]
  | succ n ih =>
    intro os
    have hrec := ih os.tail
    unfold releaseRetryLoop
    rcases hh : os.headD (.failure "createRelease failed") with mf | m
    · cases hme : me with
      | true =>
        cases mf with
        | none =>
          simp [hh, emit_bind, ret_bind, ret, ok_pair_bind, countReleaseAttempts,
            isCreateReleaseCall_create, isCreateReleaseCall_milestone]
        | some m =>
          by_cases hA : isTagNotFoundMessage m
          · cases n with
            | zero =>
              simp [hh, hA, emit_bind, ret_bind, ret, ok_pair_bind, failWith,
                countReleaseAttempts, isCreateReleaseCall_create, isCreateReleaseCall_milestone]
            | succ k =>
              have hrec2 : countReleaseAttempts (releaseRetryLoop tag true (k + 1) os.tail).2 ≤
                  k + 1 := by simpa [hme] using hrec
              simp only [countReleaseAttempts] at hrec2 ⊢
              simp [hh, hA, emit_bind, ret_bind, ret, ok_pair_bind, countReleaseAttempts,
                isCreateReleaseCall_create, isCreateReleaseCall_milestone,
                isCreateReleaseCall_sleep]
              omega
          · simp [hh, hA, emit_bind, ret_bind, ret, ok_pair_bind, failWith,
              countReleaseAttempts, isCreateReleaseCall_create, isCreateReleaseCall_milestone]
      | false =>
        cases mf with
        | none =>
          simp [hh, emit_bind, ret_bind, ret, ok_pair_bind, countReleaseAttempts,
            isCreateReleaseCall_create]
        | some m =>
          simp [hh, emit_bind, ret_bind, ret, ok_pair_bind, countReleaseAttempts,
            isCreateReleaseCall_create]
    · by_cases hA : isTagNotFoundMessage m
      · cases n with
        | zero =>
          simp [hh, hA, emit_bind, ret_bind, ret, ok_pair_bind, failWith,
            countReleaseAttempts, isCreateReleaseCall_create]
        | succ k =>
          have hrec2 : countReleaseAttempts (releaseRetryLoop tag me (k + 1) os.tail).2 ≤
              k + 1 := hrec
          simp only [countReleaseAttempts] at hrec2 ⊢
          simp [hh, hA, emit_bind, ret_bind, ret, ok_pair_bind, countReleaseAttempts,
            isCreateReleaseCall_create, isCreateReleaseCall_sleep]
          omega
      · simp [hh, hA, emit_bind, ret_bind, ret, ok_pair_bind, failWith,
          countReleaseAttempts, isCreateReleaseCall_create]

/-- C5: release-record creation is attempted at most 3 times; a retry happens
only when the failure message indicates the tag reference was not found, and is
preceded by a fixed 3-second sleep; any other failure is re-thrown immediately
after a single attempt; exhausting all retries on tag-not-found failures raises
the propagation-timeout error naming the 3 attempts made. -/
theorem releaseRecordRetryPolicy (tagName : String) (milestonesEnabled : Bool) :
    (∀ outcomes,
      countReleaseAttempts (releaseRetryLoop tagName milestonesEnabled 3 outcomes).2 ≤ 3) ∧
    (∀ retries outcomes msg, isTagNotFoundMessage msg = false →
      releaseRetryLoop tagName milestonesEnabled (retries + 1) (.failure msg :: outcomes) =
        (Except.error (.failure msg), [Effect.githubWrite ("createRelease " ++ tagName)])) ∧
    (∀ retries outcomes msg, isTagNotFoundMessage msg = true →
      releaseRetryLoop tagName milestonesEnabled (retries + 1 + 1) (.failure msg :: outcomes) =
        ((releaseRetryLoop tagName milestonesEnabled (retries + 1) outcomes).1,
          Effect.githubWrite ("createRelease " ++ tagName) :: Effect.sleep 3000 ::
            (releaseRetryLoop tagName milestonesEnabled (retries + 1) outcomes).2)) ∧
    (∀ m1 m2 m3 rest, isTagNotFoundMessage m1 = true → isTagNotFoundMessage m2 = true →
      isTagNotFoundMessage m3 = true →
      releaseRetryLoop tagName milestonesEnabled 3
          (.failure m1 :: .failure m2 :: .failure m3 :: rest) =
        (Except.error (.failure (tagPropagationTimeoutMsg tagName 3)),
          [Effect.githubWrite ("createRelease " ++ tagName), Effect.sleep 3000,
           Effect.githubWrite ("createRelease " ++ tagName), Effect.sleep 3000,
           Effect.githubWrite ("createRelease " ++ tagName)])) := by
  refine ⟨?_, ?_, ?_, ?_⟩
  · intro outcomes
    exact releaseRetry_count_le tagName milestonesEnabled 3 outcomes
  · intro retries outcomes msg hA
    simp [releaseRetryLoop, hA, emit_bind, ret, ok_pair_bind, failWith]
  · intro retries outcomes msg hA
    simp [releaseRetryLoop, hA, emit_bind, ret, ok_pair_bind]
  · intro m1 m2 m3 rest h1 h2 h3
    simp [releaseRetryLoop, h1, h2, h3, emit_bind, ret, ok_pair_bind, failWith]


/-- Witness for the retry policy: the attempt count of a concrete run is
bounded by 3, an unrelated failure is re-thrown after a single attempt, and
three tag-not-found failures exhaust the retries with the propagation-timeout
error naming 3 attempts. -/
theorem releaseRecordRetryPolicy_witness :
    countReleaseAttempts (releaseRetryLoop "v1.2.3" true 3 []).2 ≤ 3 ∧
      releaseRetryLoop "v1.2.3" true (1 + 1) (.failure "network unreachable" :: []) =
        (Except.error (.failure "network unreachable"),
          [Effect.githubWrite ("createRelease " ++ "v1.2.3")]) ∧
      releaseRetryLoop "v1.2.3" true 3
          (.failure "not found" :: .failure "does not exist" ::
            .failure "Reference does not exist" :: []) =
        (Except.error (.failure (tagPropagationTimeoutMsg "v1.2.3" 3)),
          [Effect.githubWrite ("createRelease " ++ "v1.2.3"), Effect.sleep 3000,
           Effect.githubWrite ("createRelease " ++ "v1.2.3"), Effect.sleep 3000,
           Effect.githubWrite ("createRelease " ++ "v1.2.3")]) :=
  ⟨(releaseRecordRetryPolicy "v1.2.3" true).1 [],
   (releaseRecordRetryPolicy "v1.2.3" true).2.1 1 [] "network unreachable" (by decide),
   (releaseRecordRetryPolicy "v1.2.3" true).2.2.2 "not found" "does not exist"
     "Reference does not exist" [] (by decide) (by decide) (by decide)⟩

/-! ## C8: post-publish reconciliation -/

/-- C8 counterexample: with the squash strategy the ancestry safety query can
fail (here `ancestryCheckOk = false`) and the force-push of the source branch
is still performed — the check result never blocks the push, because its
failure is caught and only logged. -/
theorem reconcileForcePushCounterexample :
    (⟨false, false, true, "1.0.1-dev.0", false, false⟩ : ReconcileEnv).ancestryCheckOk = false ∧
      Effect.gitForcePush "working" ∈
        (reconcilePhase ⟨false, false, true, "1.0.1-dev.0", false, false⟩
          ⟨false,
            ⟨none, false, false, none, none, none, false, false, false, some "squash", false,
              none, none, false⟩,
            none, false⟩
          "working" "main" "squash").2 := by
  constructor
  · rfl
  · decide

/-- C8 (amended): with the squash strategy the source branch is hard-reset to
the target and force-pushed, and the ancestry safety query (fetch plus
merge-base) is attempted immediately before the force-push, but its outcome is
swallowed and the push happens regardless; with a non-squash strategy the
target is fast-forward-merged into the source, falling back to a regular merge
when fast-forward fails.  Both branches then bump to the next development
version and push the source branch. -/
theorem reconcilePolicy (env : ReconcileEnv) (cfg : PubConfig)
    (currentBranch targetBranch : String) (hreal : cfg.dryRun = false) :
    (reconcilePhase env cfg currentBranch targetBranch "squash" =
      (Except.ok (),
        [Effect.gitCheckout currentBranch, Effect.gitResetHard targetBranch,
         Effect.gitFetch ("origin " ++ currentBranch),
         Effect.gitLocal ("merge-base --is-ancestor origin/" ++ currentBranch ++ " " ++ targetBranch),
         Effect.gitForcePush currentBranch] ++
        Effect.npm ("npm version " ++ (devBumpSettings cfg currentBranch).1 ++ " --preid=" ++
            (devBumpSettings cfg currentBranch).2 ++ " --no-git-tag-version") ::
          ((if env.devVersionBumpFails then []
            else [Effect.gitAdd "package.json",
                  Effect.gitCommit ("chore: bump to " ++ env.newDevVersion)]) ++
           [Effect.gitPushBranch currentBranch]))) ∧
    (∀ mergeMethod, (mergeMethod == "squash") = false →
      reconcilePhase env cfg currentBranch targetBranch mergeMethod =
        (Except.ok (),
          Effect.gitCheckout currentBranch ::
            Effect.gitMerge (targetBranch ++ " --ff-only") ::
            ((if env.ffMergeSucceeds then []
              else [Effect.gitMerge (targetBranch ++ " --no-edit")]) ++
             (Effect.npm ("npm version " ++ (devBumpSettings cfg currentBranch).1 ++ " --preid=" ++
                 (devBumpSettings cfg currentBranch).2 ++ " --no-git-tag-version") ::
               ((if env.devVersionBumpFails then []
                 else [Effect.gitAdd "package.json",
                       Effect.gitCommit ("chore: bump to " ++ env.newDevVersion)]) ++
                [Effect.gitPushBranch currentBranch]))))) := by
  constructor
  · rcases hb : env.devVersionBumpFails with _ | _ <;>
      simp [reconcilePhase, hreal, hb, emit, emit_bind, ret, ok_pair_bind]
  · intro mergeMethod hm
    rcases hb : env.devVersionBumpFails with _ | _ <;>
      rcases hff : env.ffMergeSucceeds with _ | _ <;>
        simp [reconcilePhase, hreal, hm, hb, hff, emit, emit_bind, ret, ok_pair_bind]

/-- Witness for the reconciliation policy at a concrete real-mode
configuration: the squash branch resets, queries ancestry, force-pushes and
bumps; the merge branch fast-forwards. -/
theorem reconcilePolicy_witness :
    reconcilePhase ⟨true, false, true, "1.0.1-dev.0", false, false⟩
        ⟨false,
          ⟨none, false, false, none, none, none, false, false, false, some "squash", false,
            none, none, false⟩,
          none, false⟩
        "working" "main" "squash" =
      (Except.ok (),
        [Effect.gitCheckout "working", Effect.gitResetHard "main",
         Effect.gitFetch ("origin " ++ "working"),
         Effect.gitLocal ("merge-base --is-ancestor origin/" ++ "working" ++ " " ++ "main"),
         Effect.gitForcePush "working"] ++
        Effect.npm ("npm version " ++
            (devBumpSettings
              ⟨false,
                ⟨none, false, false, none, none, none, false, false, false, some "squash", false,
                  none, none, false⟩,
                none, false⟩ "working").1 ++ " --preid=" ++
            (devBumpSettings
              ⟨false,
                ⟨none, false, false, none, none, none, false, false, false, some "squash", false,
                  none, none, false⟩,
                none, false⟩ "working").2 ++ " --no-git-tag-version") ::
          ((if (⟨true, false, true, "1.0.1-dev.0", false, false⟩ : ReconcileEnv).devVersionBumpFails
            then []
            else [Effect.gitAdd "package.json",
                  Effect.gitCommit ("chore: bump to " ++ "1.0.1-dev.0")]) ++
           [Effect.gitPushBranch "working"])) :=
  (reconcilePolicy ⟨true, false, true, "1.0.1-dev.0", false, false⟩
    ⟨false,
      ⟨none, false, false, none, none, none, false, false, false, some "squash", false,
        none, none, false⟩,
      none, false⟩
    "working" "main" rfl).1

/-! ## Concrete environments for the publish-level theorems -/

/-- Trace projection of a finished run. -/
theorem runStep_trace (s : Step Unit) : (runStep s).trace = s.2 := by
  rcases s with ⟨r, tr⟩
  rcases r with e | a
  · rcases e with _ | m <;> rfl
  · rfl

/-- Release-notes environment of the concrete runs. -/
def happyReleaseEnv : ReleaseEnv :=
  { milestoneVersions := ["1.0.1"], title := "v1.0.1", body := "release notes" }

/-- Reconciliation environment of the concrete runs. -/
def happyReconcileEnv : ReconcileEnv :=
  { ancestryCheckOk := true, forcePushFails := false, ffMergeSucceeds := true,
    newDevVersion := "1.0.2-dev.0", devVersionBumpFails := false, pushSourceFails := false }

/-- Necessity input with a substantive source change. -/
def happyNecessity : NecessityEnv :=
  { targetAccessible := true, changedFiles := ["src/index.ts"], basePkg := none, headPkg := none }

/-- Necessity input where only the manifest version field differs. -/
def versionOnlyNecessity : NecessityEnv :=
  { targetAccessible := true, changedFiles := ["package.json"],
    basePkg := some [("name", Json.str "pkg"), ("version", Json.str "1.0.0")],
    headPkg := some [("name", Json.str "pkg"), ("version", Json.str "1.0.1")] }

/-- A fully successful environment for a real publish run. -/
def happyEnv : PubEnv :=
  { currentBranch := "working", remoteHasCurrentBranch := true, currentSyncOutcome := .clean,
    syncTargetOutcome := .success, targetLocalExists := true, targetRemoteExists := true,
    inGitRepo := true, workingDirDirty := false, targetInSync := true, agenticResolves := false,
    pkgJsonExists := true, pkgJsonParses := true, hasPrepublishOnly := true,
    missingEnvVars := [], necessity := happyNecessity, necessityCheckThrows := false,
    openPR := none, packageLockHasLinkRefs := false, depsStaged := true, mergeNeeded := false,
    preMergeOutcome := .clean, postMergeChanges := false, postMergeStaged := false,
    packageName := "@scope/pkg", currentVersion := "1.0.0",
    branchVersionResult := ("1.0.1", "main"), calculatedVersion := "1.0.1",
    tagExistsForProposed := false, npmVersion := none, confirmedVersion := "1.0.1",
    confirmedTagExists := false, bumpStaged := true, releaseEnv := happyReleaseEnv,
    prCreateOk := true, newPRNumber := 42, checksWaitError := none, prMergeError := none,
    dirtyAtCheckout := false, targetRemoteExistsLater := true, targetSyncOutcome := .clean,
    versionOnTarget := "1.0.1", tagListShowsTag := false, tagOnRemote := false,
    releaseAttempts := [.success none], workflowsWaitError := none,
    reconcile := happyReconcileEnv }

/-- The environment of a run whose diff is a version-only manifest change. -/
def versionOnlyEnv : PubEnv := { happyEnv with necessity := versionOnlyNecessity }

/-- The environment of a run that finds an existing open pull request. -/
def openPREnv : PubEnv := { happyEnv with openPR := some 7 }

/-- Default real-mode configuration. -/
def realCfg : PubConfig :=
  { dryRun := false,
    publish :=
      { targetBranch := none, syncTarget := false, updateDeps := false,
        dependencyUpdatePatterns := none, skipPrePublishMerge := none, targetVersion := none,
        skipAlreadyPublished := false, forceRepublish := false, interactive := false,
        mergeMethod := none, noMilestones := false, waitForReleaseWorkflows := none,
        releaseWorkflowNames := none, agenticPublish := false },
    branches := none, releaseNoMilestones := false }

/-- Default dry-run configuration. -/
def dryCfg : PubConfig := { realCfg with dryRun := true }

/-! ## C2: skip marker on unnecessary release -/

/-- C2: when the release-necessity evaluation returns necessary=false, the
publish command resolves successfully, writes the machine-readable marker
KODRDRIV_PUBLISH_SKIPPED on the primary output stream as the last effect of the
run, and performs no operation of any kind after it. -/
theorem skipMarkerPolicy (env : PubEnv) (cfg : PubConfig) (cb : String) (tr0 : List Effect)
    (hpro : publishPrologue env cfg = (Except.ok cb, tr0))
    (hthrow : env.necessityCheckThrows = false)
    (hnec : (isReleaseNecessaryComparedToTarget env.necessity).necessary = false) :
    publishExecute env cfg =
      ⟨true, none,
        tr0 ++ (necessityEffects env.necessity ++ [Effect.stdout "KODRDRIV_PUBLISH_SKIPPED"])⟩ := by
  simp [publishExecute, publishMain, hpro, necessityPhase, hthrow, hnec, emit, emitAll,
    emit_bind, emitAll_bind, exitOk, ret, ok_pair_bind, error_pair_bind, runStep]

/-- Witness for the skip-marker policy: a concrete run over a version-only
manifest diff resolves successfully with the marker as its final effect. -/
theorem skipMarkerPolicy_witness :
    publishExecute versionOnlyEnv realCfg =
      ⟨true, none,
        (publishPrologue versionOnlyEnv realCfg).2 ++
          (necessityEffects versionOnlyEnv.necessity ++
            [Effect.stdout "KODRDRIV_PUBLISH_SKIPPED"])⟩ :=
  skipMarkerPolicy versionOnlyEnv realCfg "working"
    (publishPrologue versionOnlyEnv realCfg).2 (by decide) rfl (by decide)

/-! ## C7: resuming at an existing pull request -/

/-- C7: pull-request lookup is keyed by the current head branch name, and when
an open pull request is found the run performs no creation-path effect — the
effect after the lookup is directly the wait for that pull request's
checks. -/
theorem prResumePolicy (env : PubEnv) (cfg : PubConfig) (cb : String) (tr0 : List Effect)
    (n : Nat)
    (hpro : publishPrologue env cfg = (Except.ok cb, tr0))
    (hthrow : env.necessityCheckThrows = false)
    (hnec : (isReleaseNecessaryComparedToTarget env.necessity).necessary = true)
    (hreal : cfg.dryRun = false)
    (hpr : env.openPR = some n) :
    (publishExecute env cfg).trace =
      tr0 ++ necessityEffects env.necessity ++
        [Effect.gitLocal "getCurrentBranchName",
         Effect.githubRead "findOpenPullRequestByHeadRef"] ++
        (publishTail env cfg n cb (resolveTargetBranch cfg cb).1).2 ∧
    (∃ t, (publishTail env cfg n cb (resolveTargetBranch cfg cb).1).2 =
      Effect.githubRead ("waitForPullRequestChecks " ++ toString n) :: t) := by
  constructor
  · rw [publishExecute, runStep_trace]
    simp [publishMain, hpro, necessityPhase, hthrow, hnec, prLookupPhase, hreal, hpr, emit,
      emitAll, emit_bind, emitAll_bind, ret, ok_pair_bind, error_pair_bind]
  · rcases hw : env.checksWaitError with _ | m
    · refine ⟨?_, ?_⟩
      · exact (((publishTail env cfg n cb (resolveTargetBranch cfg cb).1).2).tail)
      · simp [publishTail, checksPhase, hreal, hw, emit, emit_bind, ret, ok_pair_bind,
          error_pair_bind, failWith]
    · refine ⟨?_, ?_⟩
      · exact (((publishTail env cfg n cb (resolveTargetBranch cfg cb).1).2).tail)
      · simp [publishTail, checksPhase, hreal, hw, emit, emit_bind, ret, ok_pair_bind,
          error_pair_bind, failWith]

/-- Witness for the pull-request resumption: a concrete run that finds PR 7
performs the lookup and continues at the checks wait, and its whole trace
contains no pull-request creation, no dependency update, no prepublish script
and no version-bump commit. -/
theorem prResumePolicy_witness :
    (publishExecute openPREnv realCfg).trace =
        (publishPrologue openPREnv realCfg).2 ++ necessityEffects openPREnv.necessity ++
          [Effect.gitLocal "getCurrentBranchName",
           Effect.githubRead "findOpenPullRequestByHeadRef"] ++
          (publishTail openPREnv realCfg 7 "working"
            (resolveTargetBranch realCfg "working").1).2 ∧
      Effect.githubWrite "createPullRequest" ∉ (publishExecute openPREnv realCfg).trace ∧
      Effect.npm "npm update" ∉ (publishExecute openPREnv realCfg).trace ∧
      Effect.npm "npm run prepublishOnly" ∉ (publishExecute openPREnv realCfg).trace :=
  ⟨(prResumePolicy openPREnv realCfg "working" (publishPrologue openPREnv realCfg).2 7
      (by decide) rfl (by decide) rfl rfl).1,
   by decide, by decide, by decide⟩

/-! ## C9: dry-run containment -/

/-- The effect trace of a dry-run publish, by the case analysis of the
command: the sync-target early path performs nothing; otherwise the
release-necessity queries run (local git only), the skip marker may end the
run, and on the creation path release-notes generation still executes with its
milestone lookup and language-model call, followed by the local head-branch
query. -/
def dryRunTrace (env : PubEnv) (cfg : PubConfig) : List Effect :=
  if cfg.publish.syncTarget then []
  else
    (if env.necessityCheckThrows then [Effect.gitLocal "getCurrentBranchName"]
     else
      necessityEffects env.necessity ++
        (if (isReleaseNecessaryComparedToTarget env.necessity).necessary then []
         else [Effect.stdout "KODRDRIV_PUBLISH_SKIPPED"])) ++
    (if env.necessityCheckThrows ||
        (isReleaseNecessaryComparedToTarget env.necessity).necessary then
      [Effect.gitLocal "diff fromRef..toRef", Effect.gitLocal "log fromRef..toRef"] ++
        (if !cfg.releaseNoMilestones && !env.releaseEnv.milestoneVersions.isEmpty then
          [Effect.githubRead "getMilestoneIssuesForRelease"]
         else []) ++
        [Effect.llm "runAgenticRelease", Effect.gitLocal "getCurrentBranchName"]
     else [])

/-- In dry-run mode the publish trace is exactly `dryRunTrace`. -/
theorem dryRun_trace_eq (env : PubEnv) (cfg : PubConfig) (hdry : cfg.dryRun = true) :
    (publishExecute env cfg).trace = dryRunTrace env cfg := by
  rw [publishExecute, runStep_trace]
  by_cases hsync : cfg.publish.syncTarget
  · simp [publishMain, publishPrologue, syncCurrentPhase, hdry, hsync, dryRunTrace,
      handleTargetBranchSyncRecovery, ensureTargetBranchPhase, runPrechecksPhase, exitOk, ret,
      ok_pair_bind, error_pair_bind, emit, emit_bind, emitAll, emitAll_bind]
  · by_cases hthrow : env.necessityCheckThrows
    · by_cases hm : !cfg.releaseNoMilestones && !env.releaseEnv.milestoneVersions.isEmpty <;>
        simp [publishMain, publishPrologue, syncCurrentPhase, hdry, hsync, hthrow, hm,
          dryRunTrace, ensureTargetBranchPhase, runPrechecksPhase, necessityPhase, prLookupPhase,
          creationPath, cleanupNpmLinkReferencesStep, preMergePhase, versionPhase,
          commitVersionBumpPhase, releaseNotesPhase, releaseExecute, pushAndCreatePRPhase,
          publishTail, checksPhase, mergePRPhase, checkoutTargetPhase, tagPhase,
          releaseRecordPhase, workflowsWaitPhase, reconcilePhase, exitOk, ret, ok_pair_bind,
          error_pair_bind, emit, emit_bind, emitAll, emitAll_bind]
    · by_cases hnec : (isReleaseNecessaryComparedToTarget env.necessity).necessary
      · by_cases hm : !cfg.releaseNoMilestones && !env.releaseEnv.milestoneVersions.isEmpty <;>
          simp [publishMain, publishPrologue, syncCurrentPhase, hdry, hsync, hthrow, hnec, hm,
            dryRunTrace, ensureTargetBranchPhase, runPrechecksPhase, necessityPhase,
            prLookupPhase, creationPath, cleanupNpmLinkReferencesStep, preMergePhase,
            versionPhase, commitVersionBumpPhase, releaseNotesPhase, releaseExecute,
            pushAndCreatePRPhase, publishTail, checksPhase, mergePRPhase, checkoutTargetPhase,
            tagPhase, releaseRecordPhase, workflowsWaitPhase, reconcilePhase, exitOk, ret,
            ok_pair_bind, error_pair_bind, emit, emit_bind, emitAll, emitAll_bind]
      · simp [publishMain, publishPrologue, syncCurrentPhase, hdry, hsync, hthrow, hnec,
          dryRunTrace, ensureTargetBranchPhase, runPrechecksPhase, necessityPhase, exitOk, ret,
          ok_pair_bind, error_pair_bind, emit, emit_bind, emitAll, emitAll_bind]

/-- Effects a dry-run publish may perform: local git queries, stdout output,
and the two external calls made by release-notes generation. -/
def dryRunSafeEffect : Effect → Bool
  | .gitLocal _ => true
  | .stdout _ => true
  | .githubRead c => c == "getMilestoneIssuesForRelease"
  | .llm c => c == "runAgenticRelease"
  | _ => false

/-- The necessity evaluator performs only local git queries. -/
theorem necessityEffects_safe (nv : NecessityEnv) :
    (necessityEffects nv).all dryRunSafeEffect = true := by
  unfold necessityEffects
  repeat' split
  all_goals simp [dryRunSafeEffect]

/-- Every effect of a dry-run publish is dry-run safe. -/
theorem dryRunTrace_safe (env : PubEnv) (cfg : PubConfig) :
    (dryRunTrace env cfg).all dryRunSafeEffect = true := by
  unfold dryRunTrace
  have hne := necessityEffects_safe env.necessity
  rw [List.all_eq_true] at hne
  by_cases hsync : cfg.publish.syncTarget <;>
    by_cases hthrow : env.necessityCheckThrows <;>
      by_cases hnec : (isReleaseNecessaryComparedToTarget env.necessity).necessary <;>
        by_cases hm : !cfg.releaseNoMilestones && !env.releaseEnv.milestoneVersions.isEmpty <;>
          simp [hsync, hthrow, hnec, hm, dryRunSafeEffect, List.all_eq_true] <;>
            exact fun e he => hne e he

/-- C9 (amended): in dry-run mode the publish command performs no tag, branch,
commit, push, pull-request or release mutation, and the only external systems
it contacts are the remote-repository milestone lookup and the language-model
service — both from release-notes generation, which is executed even in
dry-run mode (so the original claim that no external system is ever contacted
does not hold). -/
theorem dryRunPolicy (env : PubEnv) (cfg : PubConfig) (hdry : cfg.dryRun = true) :
    (∀ e ∈ (publishExecute env cfg).trace,
      e.touchesTagOrBranch = false ∧
      (e.contactsExternal = true →
        e = Effect.githubRead "getMilestoneIssuesForRelease" ∨
          e = Effect.llm "runAgenticRelease")) ∧
    (cfg.publish.syncTarget = false → env.necessityCheckThrows = false →
      (isReleaseNecessaryComparedToTarget env.necessity).necessary = true →
      Effect.llm "runAgenticRelease" ∈ (publishExecute env cfg).trace) := by
  constructor
  · intro e he
    rw [dryRun_trace_eq env cfg hdry] at he
    have hsafe := dryRunTrace_safe env cfg
    rw [List.all_eq_true] at hsafe
    have hs := hsafe e he
    cases e with
    | gitLocal c => exact ⟨rfl, by intro h; exact absurd h (by simp [Effect.contactsExternal])⟩
    | stdout c => exact ⟨rfl, by intro h; exact absurd h (by simp [Effect.contactsExternal])⟩
    | githubRead c =>
      have : c = "getMilestoneIssuesForRelease" := by
        have := hs
        simpa [dryRunSafeEffect] using this
      subst this
      exact ⟨rfl, fun _ => Or.inl rfl⟩
    | llm c =>
      have : c = "runAgenticRelease" := by
        have := hs
        simpa [dryRunSafeEffect] using this
      subst this
      exact ⟨rfl, fun _ => Or.inr rfl⟩
    | gitFetch c => exact absurd hs (by simp [dryRunSafeEffect])
    | gitLsRemote c => exact absurd hs (by simp [dryRunSafeEffect])
    | syncBranchWithRemote c => exact absurd hs (by simp [dryRunSafeEffect])
    | gitCheckout c => exact absurd hs (by simp [dryRunSafeEffect])
    | gitCheckoutOurs c => exact absurd hs (by simp [dryRunSafeEffect])
    | gitAdd c => exact absurd hs (by simp [dryRunSafeEffect])
    | gitCommit c => exact absurd hs (by simp [dryRunSafeEffect])
    | gitMerge c => exact absurd hs (by simp [dryRunSafeEffect])
    | gitStash c => exact absurd hs (by simp [dryRunSafeEffect])
    | gitBranchCreate a b => exact absurd hs (by simp [dryRunSafeEffect])
    | gitResetHard c => exact absurd hs (by simp [dryRunSafeEffect])
    | gitTagCreate c => exact absurd hs (by simp [dryRunSafeEffect])
    | gitTagDeleteLocal c => exact absurd hs (by simp [dryRunSafeEffect])
    | gitTagDeleteRemote c => exact absurd hs (by simp [dryRunSafeEffect])
    | gitPushBranch c => exact absurd hs (by simp [dryRunSafeEffect])
    | gitPushTag c => exact absurd hs (by simp [dryRunSafeEffect])
    | gitForcePush c => exact absurd hs (by simp [dryRunSafeEffect])
    | fsRemove c => exact absurd hs (by simp [dryRunSafeEffect])
    | fsWrite c => exact absurd hs (by simp [dryRunSafeEffect])
    | npm c => exact absurd hs (by simp [dryRunSafeEffect])
    | githubWrite c => exact absurd hs (by simp [dryRunSafeEffect])
    | registryRead c => exact absurd hs (by simp [dryRunSafeEffect])
    | sleep ms => exact ⟨rfl, by intro h; exact absurd h (by simp [Effect.contactsExternal])⟩
  · intro hsync hthrow hnec
    rw [dryRun_trace_eq env cfg hdry]
    unfold dryRunTrace
    simp [hsync, hthrow, hnec]


/-- C9 counterexample: a concrete dry-run publish still contacts the
language-model service through release-notes generation, contradicting the
claim that no external system is ever contacted in dry-run mode. -/
theorem dryRunContactsLLMCounterexample :
    dryCfg.dryRun = true ∧
      Effect.llm "runAgenticRelease" ∈ (publishExecute happyEnv dryCfg).trace ∧
      (Effect.llm "runAgenticRelease").contactsExternal = true := by
  refine ⟨rfl, ?_, rfl⟩
  decide

/-- Witness for the dry-run containment: the concrete dry-run publish is in
dry-run mode and its trace contains the language-model call allowed by the
amended statement. -/
theorem dryRunPolicy_witness :
    dryCfg.dryRun = true ∧
      Effect.llm "runAgenticRelease" ∈ (publishExecute happyEnv dryCfg).trace :=
  ⟨rfl, (dryRunPolicy happyEnv dryCfg rfl).2 rfl rfl (by decide)⟩

/-! ## C10: development command early exit -/

/-- Effects that constitute a version bump in the development command: the
manifest write and the `chore: bump to <version>` commit emitted by its bump
step. -/
def versionBumpEffect : Effect → Bool
  | .fsWrite _ => true
  | .gitCommit m => prefixMatches "chore: bump to ".data m.data
  | _ => false

/-- Invariant transport for step computations: every emitted effect satisfies
`p`, and any successful result satisfies `good`. -/
def SafeStep {α : Type} (p : Effect → Bool) (good : α → Prop) (x : Step α) : Prop :=
  x.2.all p = true ∧ ∀ a, x.1 = Except.ok a → good a

/-- The invariant passes through a bind: the continuation only ever runs on a
result the first component could actually produce. -/
theorem safeStep_bind {α β : Type} {p : Effect → Bool} {g2 : β → Prop}
    {x : Step α} {f : α → Step β} (g1 : α → Prop)
    (hx : SafeStep p g1 x) (hf : ∀ a, g1 a → SafeStep p g2 (f a)) :
    SafeStep p g2 (x >>= f) := by
  rcases x with ⟨r, tr⟩
  rcases r with e | a
  · exact ⟨hx.1, fun b hb => by cases hb⟩
  · have hfa := hf a (hx.2 a rfl)
    refine ⟨?_, ?_⟩
    · show (tr ++ (f a).2).all p = true
      rw [List.all_append]
      have h1 : tr.all p = true := hx.1
      rw [h1, hfa.1]
      rfl
    · intro b hb
      exact hfa.2 b hb

/-- A unit-valued step is safe as soon as its trace is. -/
theorem safeStep_unit {p : Effect → Bool} {x : Step Unit} (h : x.2.all p = true) :
    SafeStep p (fun _ => True) x := ⟨h, fun _ _ => trivial⟩

/-- A pure return emits nothing and yields exactly its argument. -/
theorem safeStep_ret {α : Type} {p : Effect → Bool} {g : α → Prop} (a : α) (h : g a) :
    SafeStep p g (ret a) := ⟨rfl, fun b hb => by cases hb; exact h⟩

/-- Configuration of the concrete development runs: defaults only. -/
def devCfgPlain : DevConfig :=
  { dryRun := false, development := none, branches := none, configuredWorkingBranch := none }

/-- Environment of a concrete development run: already on the working branch
with a development version and nothing to merge. -/
def devEnvOnWorking : DevEnv :=
  { currentBranch := "working", mergeStatusChanges := false, workingBranchExists := true,
    remoteWorkingExists := false, workingSyncOutcome := .clean, targetBranchExists := false,
    targetFFOutcome := .ok, targetMergeOutcome := .clean, targetPostMergeChanges := false,
    developmentBranchExists := false, devMergeOutcome := .clean, devPostMergeChanges := false,
    retroTags := [], pkgVersion := some "1.0.1-dev.0",
    pkgVersionAtTagStep := some "1.0.1-dev.0", tagAlreadyExists := false,
    pkgVersionAtBump := some "1.0.1-dev.0" }

/-- Environment of a concrete development run that is already on the working
branch with a development version but whose local target branch has diverged:
the fast-forward sync is not possible, the fallback merge succeeds and leaves
changes to commit. -/
def devEnvDivergedTarget : DevEnv :=
  { currentBranch := "working", mergeStatusChanges := false, workingBranchExists := true,
    remoteWorkingExists := false, workingSyncOutcome := .clean, targetBranchExists := true,
    targetFFOutcome := .notPossible, targetMergeOutcome := .clean,
    targetPostMergeChanges := true, developmentBranchExists := false,
    devMergeOutcome := .clean, devPostMergeChanges := false, retroTags := [],
    pkgVersion := some "1.0.1-dev.0", pkgVersionAtTagStep := some "1.0.1-dev.0",
    tagAlreadyExists := false, pkgVersionAtBump := some "1.0.1-dev.0" }

/-- C10 counterexample: a run that is already on the working branch, merges no
development branch, and carries the development prerelease suffix still creates
a commit before the early exit — the target-branch sync falls back to a regular
merge and commits `chore: update dependencies after merge` — while the run
returns "Already on working branch with development version", contradicting the
claim that no commit is created. -/
theorem devEarlyExitCommitCounterexample :
    devEnvDivergedTarget.currentBranch = "working" ∧
      devEnvDivergedTarget.developmentBranchExists = false ∧
      containsSub "1.0.1-dev.0" ("-" ++ "dev" ++ ".") = true ∧
      (devExecute devEnvDivergedTarget devCfgPlain).1 =
        Except.ok "Already on working branch with development version" ∧
      Effect.gitCommit "chore: update dependencies after merge" ∈
        (devExecute devEnvDivergedTarget devCfgPlain).2 := by
  refine ⟨rfl, rfl, by decide, by decide, by decide⟩

set_option maxHeartbeats 1000000 in
/-- C10 (amended): when the current branch is already the configured working
branch, no development-branch merge occurs, and the manifest version already
carries the configured prerelease tag suffix, the development command either
throws a synchronization error or returns the message "Already on working
branch with development version", and in all cases performs no version bump:
it never writes the manifest and never creates a `chore: bump to` commit.
Dependency-update commits from the preceding branch-synchronization merges may
still be created. -/
theorem devEarlyExitPolicy (env : DevEnv) (cfg : DevConfig) (w v : String)
    (s : String × String)
    (hdry : cfg.dryRun = false)
    (hw : (match cfg.configuredWorkingBranch with | some b => b | none => "working") = w)
    (hset : devVersionSettings cfg w = .ok s)
    (hcb : env.currentBranch = w)
    (hnd : (w == "development") = false)
    (hex : env.workingBranchExists = true)
    (hdb : env.developmentBranchExists = false)
    (hver : env.pkgVersion = some v)
    (htag : containsSub v ("-" ++ s.1 ++ ".") = true) :
    ((devExecute env cfg).1 =
        Except.ok "Already on working branch with development version" ∨
      ∃ a, (devExecute env cfg).1 = Except.error a) ∧
    ((devExecute env cfg).2).all (fun e => !versionBumpEffect e) = true := by
  have hQ : SafeStep (fun e => !versionBumpEffect e)
      (fun m => m = "Already on working branch with development version")
      (devExecute env cfg) := by
    unfold devExecute
    simp only [hdry, hw, hset, hcb, hnd, hex, hdb, hver, htag, Bool.not_false, Bool.not_true,
      Bool.false_eq_true, Bool.and_self, bne_self_eq_false, if_true, if_false, ite_true,
      ite_false, beq_self_eq_true]
    refine safeStep_bind (fun x => x = s) (safeStep_ret s rfl) ?_
    intro settings hs
    subst hs
    refine safeStep_bind (fun _ => True) (safeStep_unit (by decide)) ?_
    intro u1 hu1
    refine safeStep_bind (fun b => b = false) (safeStep_ret false rfl) ?_
    intro y hy
    subst hy
    simp only [Bool.not_false, Bool.and_self, eq_self_iff_true, if_true]
    refine safeStep_bind (fun _ => True) (safeStep_unit (by simp [emit, versionBumpEffect])) ?_
    intro u2 hu2
    refine safeStep_bind (fun t => t = (false, false, true)) (safeStep_ret _ rfl) ?_
    intro y1 hy1
    subst hy1
    refine safeStep_bind (fun _ => True) ?_ ?_
    · apply safeStep_unit
      cases h1 : env.remoteWorkingExists <;> cases h2 : env.workingSyncOutcome <;>
        simp [h1, h2, emit, emit_bind, ret, failWith, versionBumpEffect, ok_pair_bind, error_pair_bind]
    intro u3 hu3
    refine safeStep_bind (fun _ => True) ?_ ?_
    · apply safeStep_unit
      cases h1 : env.targetBranchExists <;> cases h2 : env.targetFFOutcome <;>
        cases h3 : env.targetMergeOutcome <;> cases h4 : env.targetPostMergeChanges <;>
        simp [h1, h2, h3, h4, emit, emit_bind, ret, failWith, versionBumpEffect, ok_pair_bind,
          error_pair_bind, prefixMatches]
    intro u4 hu4
    refine safeStep_bind (fun _ => True) ?_ ?_
    · apply safeStep_unit
      simp [emit, emit_bind, ret, versionBumpEffect, ok_pair_bind, error_pair_bind]
    intro u5 hu5
    refine safeStep_bind (fun _ => True) ?_ ?_
    · apply safeStep_unit
      split
      · cases h1 : env.retroTags.isEmpty <;>
          simp [createRetroactiveTagsStep, h1, emit, emit_bind, emitAll, emitAll_bind, ret,
            versionBumpEffect, List.all_append, List.all_map, Function.comp, ok_pair_bind,
            error_pair_bind]
      · simp [ret]
    intro u6 hu6
    simp only [htag, Bool.not_false, Bool.true_and, Bool.and_self]
    exact safeStep_ret _ rfl
  refine ⟨?_, hQ.1⟩
  cases h : (devExecute env cfg).1 with
  | error a => exact Or.inr ⟨a, rfl⟩
  | ok m =>
    have hm := hQ.2 m h
    exact Or.inl (congrArg Except.ok hm)

/-- Witness for the amended early-exit statement at the concrete quiescent run:
the trace carries no version-bump effect and the result is the early-exit
message. -/
theorem devEarlyExitPolicy_witness :
    ((devExecute devEnvOnWorking devCfgPlain).2).all (fun e => !versionBumpEffect e) = true ∧
      (devExecute devEnvOnWorking devCfgPlain).1 =
        Except.ok "Already on working branch with development version" :=
  ⟨(devEarlyExitPolicy devEnvOnWorking devCfgPlain "working" "1.0.1-dev.0" ("dev", "patch")
      rfl rfl rfl rfl (by decide) rfl rfl rfl (by decide)).2, by decide⟩
